import Mathlib

/-!
Verification development for the Artemis/Exon scripting-language engine:
a shallow embedding of the bytecode compiler (`compiler` package, the
variant in `src/unnamed/part_002`) and the stack virtual machine
(`src/vm/vm.go`), together with theorems settling the frozen claims
about the engine.

Conventions of the embedding:
* Go `int64` arithmetic is modelled on `Int` with explicit two's-complement
  wrapping (`wrap64`) where Go wraps.
* Go runtime panics (index out of range, integer divide by zero, nil
  dereference) are a distinct outcome (`StepRes.goPanic`) from error values
  returned by the run loop (`StepRes.vmError`), mirroring Go.
* Host-coupled behavior (goroutines spawned by `OpSpawn`, file I/O of
  `OpImport`, host builtin bodies, IEEE-754 float arithmetic,
  address-dependent or map-iteration-dependent `Inspect` output, in-place
  array mutation through aliases) is out of the model; execution paths that
  would reach it end in the explicit `StepRes.unmodeled` outcome.  No claim
  settled here reaches such a path.
-/

namespace Exon

/-- Hash key of a hashable value: a (type-tag, 64-bit value) pair
(`object.HashKey` in `src/unnamed/part_000`). The 64-bit value is a `Nat`
below 2^64. -/
structure HashKey where
  type : String
  value : Nat
deriving DecidableEq, Repr

/-- Runtime value universe (`object.Object` in `src/unnamed/part_000`).
`Float` carries its raw IEEE-754 bit pattern; float arithmetic itself is not
modelled (no claim exercises it).  `GoNil` stands for a nil Go interface
value, the content of a never-written stack or globals slot. -/
inductive Object where
  | Integer (value : Int)
  | Float (bits : Nat)
  | Boolean (value : Bool)
  | Null
  | Str (value : String)
  | Arr (elements : List Object)
  | HashObj (pairs : List (HashKey × Object × Object))
  | CompiledFunction (instructions : List Nat) (numLocals numParameters : Nat)
  | ClosureObj (instructions : List Nat) (numLocals numParameters : Nat)
      (free : List Object)
  | BuiltinNamed (index : Nat)
  | BuiltinArrayLen (elements : List Object)
  | BuiltinArrayPush (elements : List Object)
  | ErrorObj (message : String)
  | GoNil
deriving Repr

/-- Type tag of a value (`Object.Type()` in `src/unnamed/part_000`). -/
@[simp] def Object.typeTag : Object → String
  | .Integer _ => "INTEGER"
  | .Float _ => "FLOAT"
  | .Boolean _ => "BOOLEAN"
  | .Null => "NULL"
  | .Str _ => "STRING"
  | .Arr _ => "ARRAY"
  | .HashObj _ => "HASH"
  | .CompiledFunction _ _ _ => "COMPILED_FUNCTION"
  | .ClosureObj _ _ _ _ => "CLOSURE"
  | .BuiltinNamed _ => "BUILTIN"
  | .BuiltinArrayLen _ => "BUILTIN"
  | .BuiltinArrayPush _ => "BUILTIN"
  | .ErrorObj _ => "ERROR"
  | .GoNil => "GO_NIL"

/-- FNV-1a 64 hash over a list of bytes (`hash/fnv` as used by
`object.String.HashKey`). -/
@[simp] def fnv1a64 (bytes : List Nat) : Nat :=
  bytes.foldl (fun h b => ((Nat.xor h (b % 256)) * 1099511628211) % (2 ^ 64))
    14695981039346656037

/-- UTF-8 bytes of a string, as `Nat`s. -/
@[simp] def strBytes (s : String) : List Nat :=
  s.toUTF8.toList.map (fun b => b.toNat)

/-- Go `uint64(v)` for an `int64` value: the two's-complement bit pattern. -/
@[simp] def toUInt64Pattern (v : Int) : Nat :=
  (v % (2 ^ 64)).toNat

/-- Hash key of a hashable value; `none` for the non-hashable kinds
(`object.Hashable` is implemented only by Integer, Boolean and String). -/
@[simp] def Object.hashKey : Object → Option HashKey
  | .Integer v => some ⟨"INTEGER", toUInt64Pattern v⟩
  | .Boolean b => some ⟨"BOOLEAN", if b then 1 else 0⟩
  | .Str s => some ⟨"STRING", fnv1a64 (strBytes s)⟩
  | _ => none

/-- Lookup in a hash's pair list (Go `map[HashKey]HashPair` access). -/
@[simp] def hashLookup (pairs : List (HashKey × Object × Object)) (k : HashKey) :
    Option (Object × Object) :=
  (pairs.find? (fun p => p.1 = k)).map (fun p => p.2)

/-- Insert-or-replace in a hash's pair list (Go map assignment). -/
@[simp] def hashInsert (pairs : List (HashKey × Object × Object)) (k : HashKey)
    (v : Object × Object) : List (HashKey × Object × Object) :=
  if (pairs.find? (fun p => p.1 = k)).isSome then
    pairs.map (fun p => if p.1 = k then (k, v) else p)
  else
    pairs ++ [(k, v)]

mutual
/-- Printable form of a value (`Object.Inspect()` in `src/unnamed/part_000`).
`none` where Go's output depends on a heap address (%p of closures and
compiled functions), on map iteration order (hashes), on IEEE formatting
(%g of floats), or would dereference nil. -/
@[simp] def Object.inspect : Object → Option String
  | .Integer v => some (toString v)
  | .Float _ => none
  | .Boolean b => some (if b then "true" else "false")
  | .Null => some "null"
  | .Str s => some s
  | .Arr elems =>
      match inspectList elems with
      | some parts => some ("[" ++ String.intercalate ", " parts ++ "]")
      | none => none
  | .HashObj _ => none
  | .CompiledFunction _ _ _ => none
  | .ClosureObj _ _ _ _ => none
  | .BuiltinNamed _ => some "builtin function"
  | .BuiltinArrayLen _ => some "builtin function"
  | .BuiltinArrayPush _ => some "builtin function"
  | .ErrorObj m => some ("ERROR: " ++ m)
  | .GoNil => none

/-- Printable forms of a list of values, `none` if any element has none. -/
@[simp] def inspectList : List Object → Option (List String)
  | [] => some []
  | o :: os =>
      match o.inspect, inspectList os with
      | some s, some rest => some (s :: rest)
      | _, _ => none
end

/-- Truthiness (`isTruthy` in `src/vm/vm.go`): a Boolean is its payload,
Null is false, every other value — including a nil interface — is true. -/
@[simp] def isTruthy : Object → Bool
  | .Boolean b => b
  | .Null => false
  | _ => true

/-- Two's-complement wrap of an integer into the `int64` range, as Go
arithmetic on `int64` does on overflow. -/
@[simp] def wrap64 (z : Int) : Int :=
  (z + 2 ^ 63) % 2 ^ 64 - 2 ^ 63

/-- Go `b` for `nativeBoolToObj` in `src/vm/vm.go`. -/
@[simp] def nativeBoolToObj (b : Bool) : Object :=
  .Boolean b

/-- Modelled from the spec: the exon `code` package (the opcode definition
table of §4.1 with `Make`) is not present under `src/` — only a smaller
engine variant's table is — while its callers (`src/unnamed/part_002`,
`src/vm/vm.go`) are.  Opcode names and operand widths follow the §4.1 table
exactly; the numeric byte values are a choice of this model, shared by the
compiler and the VM, and no claim depends on them. -/
@[simp] def opConstant : Nat := 0

@[simp] def opString : Nat := 1

@[simp] def opNull : Nat := 2

@[simp] def opTrue : Nat := 3

@[simp] def opFalse : Nat := 4

@[simp] def opAdd : Nat := 5

@[simp] def opSub : Nat := 6

@[simp] def opMul : Nat := 7

@[simp] def opDiv : Nat := 8

@[simp] def opMod : Nat := 9

@[simp] def opBitAnd : Nat := 10

@[simp] def opBitOr : Nat := 11

@[simp] def opBitXor : Nat := 12

@[simp] def opLshift : Nat := 13

@[simp] def opRshift : Nat := 14

@[simp] def opBitNot : Nat := 15

@[simp] def opGreaterThan : Nat := 16

@[simp] def opEqual : Nat := 17

@[simp] def opNotEqual : Nat := 18

@[simp] def opMinus : Nat := 19

@[simp] def opBang : Nat := 20

@[simp] def opOut : Nat := 21

@[simp] def opPop : Nat := 22

@[simp] def opDup : Nat := 23

@[simp] def opSetGlobal : Nat := 24

@[simp] def opGetGlobal : Nat := 25

@[simp] def opSetLocal : Nat := 26

@[simp] def opGetLocal : Nat := 27

@[simp] def opSetFree : Nat := 28

@[simp] def opGetFree : Nat := 29

@[simp] def opGetBuiltin : Nat := 30

@[simp] def opArray : Nat := 31

@[simp] def opHash : Nat := 32

@[simp] def opIndex : Nat := 33

@[simp] def opMember : Nat := 34

@[simp] def opJump : Nat := 35

@[simp] def opJumpNotTruthy : Nat := 36

@[simp] def opJumpTruthy : Nat := 37

@[simp] def opCatch : Nat := 38

@[simp] def opEndCatch : Nat := 39

@[simp] def opThrow : Nat := 40

@[simp] def opCall : Nat := 41

@[simp] def opSpawn : Nat := 42

@[simp] def opClosure : Nat := 43

@[simp] def opReturnValue : Nat := 44

@[simp] def opReturn : Nat := 45

@[simp] def opImport : Nat := 46

/-- Operand widths of an opcode, per the §4.1 definition table. -/
@[simp] def operandWidths (op : Nat) : List Nat :=
  if op = opConstant ∨ op = opString ∨ op = opSetGlobal ∨ op = opGetGlobal ∨
      op = opArray ∨ op = opHash ∨ op = opMember ∨ op = opJump ∨
      op = opJumpNotTruthy ∨ op = opJumpTruthy ∨ op = opCatch then [2]
  else if op = opSetLocal ∨ op = opGetLocal ∨ op = opSetFree ∨
      op = opGetFree ∨ op = opGetBuiltin ∨ op = opCall ∨ op = opSpawn then [1]
  else if op = opClosure then [2, 1]
  else []

/-- Big-endian encoding of one operand at the given width
(`binary.BigEndian.PutUint16` resp. a single byte in `code.Make`). -/
@[simp] def encodeOperand (width operand : Nat) : List Nat :=
  if width = 2 then [operand % 65536 / 256, operand % 256]
  else if width = 1 then [operand % 256]
  else []

/-- Serialize an instruction (`code.Make`): the opcode byte followed by the
operands encoded at their declared widths; unsupplied operands stay zero. -/
@[simp] def make (op : Nat) (operands : List Nat) : List Nat :=
  let widths := operandWidths op
  let padded := operands ++ List.replicate (widths.length - operands.length) 0
  op :: (List.zip widths padded).foldr (fun p acc => encodeOperand p.1 p.2 ++ acc) []

/-- Big-endian 16-bit read at a byte position (`binary.BigEndian.Uint16`). -/
@[simp] def readUInt16 (ins : List Nat) (pos : Nat) : Nat :=
  256 * ins.getD pos 0 + ins.getD (pos + 1) 0

/-- Maximum operand-stack slots (`StackSize` in `src/vm/vm.go`). -/
@[simp] def StackSize : Nat := 2048

/-- Maximum call frames (`MaxFrames` in `src/vm/vm.go`). -/
@[simp] def MaxFrames : Nat := 1024

/-- Builtin names in registration order (`BuiltinNames` in
`src/builtins/registry.go`). -/
@[simp] def BuiltinNames : List String :=
  ["type", "len", "push", "first", "last", "pop",
   "readFile", "writeFile",
   "toUpperCase", "toLowerCase",
   "now", "sleep",
   "json_encode", "json_decode",
   "fs_remove", "fs_exists",
   "os_mouse_move", "os_mouse_click", "os_key_tap", "os_exec",
   "os_mouse_get_pos", "os_alert", "os_compile", "os_keyboard_type",
   "math_random", "math_sqrt", "math_pow",
   "str_split", "str_contains",
   "http_get", "http_serve",
   "input", "int", "float", "str", "bool", "typeof",
   "copy", "paste"]

/-- One call frame (`Frame` in `src/vm/vm.go`): the closure is flattened
into its function's instruction stream, optional per-module constants
(`CompiledFunction.Constants`, set only by module import) and free values. -/
structure Frame where
  instructions : List Nat
  fnConstants : Option (List Object)
  free : List Object
  numLocals : Nat
  ip : Int
  basePointer : Nat
deriving Repr

/-- Go's operand stack is a fixed 2048-slot array whose unwritten slots
hold nil.  It is modelled sparsely: the list holds the written slots
`0..len-1`; reading an unwritten slot yields `GoNil`, and writing past the
written region pads the gap with `GoNil`.  Bounds checks against
`StackSize` stay at the call sites that Go would fault on. -/
@[simp] def stackWrite (l : List Object) (i : Nat) (obj : Object) : List Object :=
  (l ++ List.replicate (i + 1 - l.length) Object.GoNil).set i obj

/-- Read a slot of the sparse stack; an unwritten slot is a nil interface
value. -/
@[simp] def stackGetD (l : List Object) (i : Nat) : Object :=
  l.getD i Object.GoNil

/-- Go's globals array (65536 slots initialized to nil) is modelled as an
association list of the written slots; reading an unwritten slot yields
`GoNil`. -/
@[simp] def globalsGet (g : List (Nat × Object)) (i : Nat) : Object :=
  ((g.find? (fun p => p.1 = i)).map (fun p => p.2)).getD .GoNil

/-- Write a globals slot (insert-or-replace). -/
@[simp] def globalsSet (g : List (Nat × Object)) (i : Nat) (obj : Object) :
    List (Nat × Object) :=
  if (g.find? (fun p => p.1 = i)).isSome then
    g.map (fun p => if p.1 = i then (i, obj) else p)
  else
    g ++ [(i, obj)]

/-- VM state (`VM` in `src/vm/vm.go`).  The operand stack and the globals
are total functions mirroring Go's fixed-size arrays whose unwritten slots
hold nil; `sp` is the stack pointer.  The head of `frames` is the current
(innermost) frame; the head of `handlers` is the most recent catch handler.
`output` collects the lines printed by `OpOut`. -/
structure VM where
  constants : List Object
  stack : List Object
  sp : Nat
  globals : List (Nat × Object)
  frames : List Frame
  handlers : List Nat
  output : List String
deriving Repr

/-- Read a stack slot of a VM (Go `vm.stack[i]`). -/
@[simp] def VM.stackGet (vm : VM) (i : Nat) : Object :=
  stackGetD vm.stack i

/-- Outcome of one dispatch step or of a whole run.  `cont` is normal
continuation, `done` is the run loop returning nil, `vmError` an error
returned from `VM.Run`, `goPanic` a Go runtime panic, `unmodeled` an
execution path that leaves this model (host calls, floats, goroutines),
`noFuel` fuel exhaustion of the bounded interpreter. -/
inductive StepRes where
  | cont (vm : VM)
  | done (vm : VM)
  | vmError (message : String)
  | goPanic (message : String)
  | unmodeled (message : String)
  | noFuel

/-- Constants visible to the current frame (`VM.getConstants`). -/
@[simp] def VM.getConstants (vm : VM) : List Object :=
  match vm.frames with
  | f :: _ => f.fnConstants.getD vm.constants
  | [] => vm.constants

/-- Push a value (`VM.push`): errors with "stack overflow" at capacity. -/
@[simp] def VM.push (vm : VM) (obj : Object) : StepRes :=
  if vm.sp ≥ StackSize then .vmError "stack overflow"
  else .cont { vm with
    stack := stackWrite vm.stack vm.sp obj,
    sp := vm.sp + 1 }

/-- Push where the Go source discards `push`'s error result (several sites
call `vm.push(...)` without checking it): on overflow the value is lost and
execution continues. -/
@[simp] def VM.pushDiscardErr (vm : VM) (obj : Object) : VM :=
  match vm.push obj with
  | .cont vm2 => vm2
  | _ => vm

/-- Pop a value (`VM.pop`): reads `stack[sp-1]` with no underflow check, so
`sp = 0` is a Go index-out-of-range panic, modelled as `none`. -/
@[simp] def VM.popVal (vm : VM) : Option (Object × VM) :=
  if vm.sp = 0 then none
  else some (vm.stackGet (vm.sp - 1), { vm with sp := vm.sp - 1 })

/-- Top of stack without popping (`VM.StackTop`); nil when empty. -/
@[simp] def VM.stackTop (vm : VM) : Object :=
  if vm.sp = 0 then .GoNil else vm.stackGet (vm.sp - 1)

/-- Overwrite the current frame's instruction pointer. -/
@[simp] def VM.withFrameIp (vm : VM) (newIp : Int) : VM :=
  match vm.frames with
  | [] => vm
  | f :: rest => { vm with frames := { f with ip := newIp } :: rest }

/-- Advance the current frame's instruction pointer by `k` operand bytes
(the `frame.ip += k` statements in the dispatch cases). -/
@[simp] def VM.bumpIp (vm : VM) (k : Nat) : VM :=
  match vm.frames with
  | [] => vm
  | f :: rest => { vm with frames := { f with ip := f.ip + k } :: rest }

/-- Write one stack slot in place (locals live below `sp`). -/
@[simp] def VM.setStack (vm : VM) (i : Nat) (obj : Object) : VM :=
  { vm with stack := stackWrite vm.stack i obj }

/-- Whether a value is numeric (Integer or Float), as tested by the float
promotion logic of `executeBinaryOperation`. -/
@[simp] def isNumericObj : Object → Bool
  | .Integer _ => true
  | .Float _ => true
  | _ => false

/-- Go two's-complement bitwise AND on `int64`. -/
@[simp] def int64And (l r : Int) : Int :=
  wrap64 (Int.ofNat (Nat.land (toUInt64Pattern l) (toUInt64Pattern r)))

/-- Go two's-complement bitwise OR on `int64`. -/
@[simp] def int64Or (l r : Int) : Int :=
  wrap64 (Int.ofNat (Nat.lor (toUInt64Pattern l) (toUInt64Pattern r)))

/-- Go two's-complement bitwise XOR on `int64`. -/
@[simp] def int64Xor (l r : Int) : Int :=
  wrap64 (Int.ofNat (Nat.xor (toUInt64Pattern l) (toUInt64Pattern r)))

/-- Integer × Integer operation (`VM.executeIntegerBinaryOp`): note that
`OpDiv` divides with no zero check (a Go runtime panic when the divisor is
zero) while `OpMod` checks for zero and returns the "modulo by zero" error. -/
@[simp] def VM.executeIntegerBinaryOp (vm : VM) (op : Nat) (left right : Int) : StepRes :=
  if op = opAdd then vm.push (.Integer (wrap64 (left + right)))
  else if op = opSub then vm.push (.Integer (wrap64 (left - right)))
  else if op = opMul then vm.push (.Integer (wrap64 (left * right)))
  else if op = opDiv then
    if right = 0 then .goPanic "integer divide by zero"
    else vm.push (.Integer (wrap64 (Int.tdiv left right)))
  else if op = opMod then
    if right = 0 then .vmError "modulo by zero"
    else vm.push (.Integer (Int.tmod left right))
  else if op = opGreaterThan then vm.push (nativeBoolToObj (decide (left > right)))
  else if op = opEqual then vm.push (nativeBoolToObj (decide (left = right)))
  else if op = opNotEqual then vm.push (nativeBoolToObj (decide (left ≠ right)))
  else if op = opBitAnd then vm.push (.Integer (int64And left right))
  else if op = opBitOr then vm.push (.Integer (int64Or left right))
  else if op = opBitXor then vm.push (.Integer (int64Xor left right))
  else if op = opLshift then
    vm.push (.Integer (wrap64 (left * 2 ^ (right % 64).toNat)))
  else if op = opRshift then
    vm.push (.Integer (Int.ediv left (2 ^ (right % 64).toNat)))
  else .vmError ("unknown integer operator: " ++ toString op)

/-- Tail of `executeBinaryOperation`: boolean equality, else the
unsupported-types error. -/
@[simp] def boolOrUnsupported (vm : VM) (op : Nat) (left right : Object) : StepRes :=
  match left, right with
  | .Boolean lb, .Boolean rb =>
    if op = opEqual then vm.push (nativeBoolToObj (lb = rb))
    else if op = opNotEqual then vm.push (nativeBoolToObj (lb ≠ rb))
    else .vmError ("unsupported types for binary operation: " ++
      left.typeTag ++ " " ++ right.typeTag)
  | _, _ => .vmError ("unsupported types for binary operation: " ++
      left.typeTag ++ " " ++ right.typeTag)

/-- Binary operation dispatch on the two popped operands
(`VM.executeBinaryOperation`): integers, then float promotion (out of this
model), then string concatenation with printable coercion, then boolean
equality, else the unsupported-types error. -/
@[simp] def VM.executeBinaryOperation (vm : VM) (op : Nat) : StepRes :=
  match vm.popVal with
  | none => .goPanic "index out of range"
  | some (right, vm1) =>
    match vm1.popVal with
    | none => .goPanic "index out of range"
    | some (left, vm2) =>
      match left, right with
      | .Integer lv, .Integer rv => vm2.executeIntegerBinaryOp op lv rv
      | _, _ =>
        if isNumericObj left ∧ isNumericObj right ∧
            (op = opAdd ∨ op = opSub ∨ op = opMul ∨ op = opDiv ∨ op = opMod ∨
             op = opGreaterThan ∨ op = opEqual ∨ op = opNotEqual) then
          .unmodeled "IEEE-754 float arithmetic"
        else
          match left, right with
          | .Str ls, .Str rs =>
            if op = opAdd then vm2.push (.Str (ls ++ rs))
            else boolOrUnsupported vm2 op left right
          | .Str ls, _ =>
            if op = opAdd then
              match right.inspect with
              | some rs => vm2.push (.Str (ls ++ rs))
              | none => .unmodeled "address-dependent Inspect"
            else boolOrUnsupported vm2 op left right
          | _, .Str rs =>
            if op = opAdd then
              match left.inspect with
              | some ls => vm2.push (.Str (ls ++ rs))
              | none => .unmodeled "address-dependent Inspect"
            else boolOrUnsupported vm2 op left right
          | _, _ => boolOrUnsupported vm2 op left right

/-- Collect the top `n` stack values into an Array (`VM.buildArray`);
`none` when `sp < n`, where Go would index the stack negatively. -/
@[simp] def VM.buildArray (vm : VM) (n : Nat) : Option Object :=
  if vm.sp < n then none
  else some (.Arr ((List.range n).map (fun i => vm.stackGet (vm.sp - n + i))))

/-- Build a Hash from the top `n` stack slots taken pairwise
(`VM.buildHash`); errors on a non-hashable key. -/
@[simp] def VM.buildHash (vm : VM) (n : Nat) : Option (Except String Object) :=
  if vm.sp < n then none
  else
    let base := vm.sp - n
    let step := fun (acc : Except String (List (HashKey × Object × Object)))
        (k : Nat) =>
      match acc with
      | .error e => .error e
      | .ok pairs =>
        let key := vm.stackGet (base + 2 * k)
        let value := vm.stackGet (base + 2 * k + 1)
        match key.hashKey with
        | none => .error ("unusable as hash key: " ++ key.typeTag)
        | some hk => .ok (hashInsert pairs hk (key, value))
    some (((List.range ((n + 1) / 2)).foldl step (.ok [])).map Object.HashObj)

/-- Array indexing (`VM.executeArrayIndex`): a negative index or one past
the last element pushes Null, otherwise the element is pushed. -/
@[simp] def VM.executeArrayIndex (vm : VM) (array index : Object) : StepRes :=
  match array, index with
  | .Arr elems, .Integer i =>
    if i < 0 ∨ i > (elems.length : Int) - 1 then vm.push .Null
    else
      match elems.get? i.toNat with
      | some v => vm.push v
      | none => .goPanic "index out of range"
  | _, _ => .goPanic "interface conversion"

/-- Hash indexing (`VM.executeHashIndex`): a non-hashable key is an error,
a missing key pushes Null. -/
@[simp] def VM.executeHashIndex (vm : VM) (hash index : Object) : StepRes :=
  match hash with
  | .HashObj pairs =>
    match index.hashKey with
    | none => .vmError ("unusable as hash key: " ++ index.typeTag)
    | some hk =>
      match hashLookup pairs hk with
      | none => vm.push .Null
      | some pair => vm.push pair.2
  | _ => .goPanic "interface conversion"

/-- Index dispatch (`VM.executeIndexExpression`): Array with Integer index,
any Hash, otherwise the index-operator-not-supported error. -/
@[simp] def VM.executeIndexExpression (vm : VM) (left index : Object) : StepRes :=
  if left.typeTag = "ARRAY" ∧ index.typeTag = "INTEGER" then
    vm.executeArrayIndex left index
  else if left.typeTag = "HASH" then
    vm.executeHashIndex left index
  else .vmError ("index operator not supported: " ++ left.typeTag)

/-- Member access (`VM.executeMemberExpression`): hash field lookup by
string key; on arrays `len` and `push` yield builtin function values and
any other member Null; other receivers are an error. -/
@[simp] def VM.executeMemberExpression (vm : VM) (obj : Object) (member : String) :
    StepRes :=
  match obj with
  | .HashObj pairs =>
    match hashLookup pairs ⟨"STRING", fnv1a64 (strBytes member)⟩ with
    | none => vm.push .Null
    | some pair => vm.push pair.2
  | .Arr elems =>
    if member = "len" then vm.push (.BuiltinArrayLen elems)
    else if member = "push" then vm.push (.BuiltinArrayPush elems)
    else vm.push .Null
  | _ => .vmError ("member access not supported on " ++ obj.typeTag)

/-- Build a closure over the top `numFree` stack values
(`VM.pushClosure`). -/
@[simp] def VM.pushClosure (vm : VM) (constIndex numFree : Nat) : StepRes :=
  match vm.getConstants.get? constIndex with
  | none => .goPanic "index out of range"
  | some c =>
    match c with
    | .CompiledFunction ins nl np =>
      if vm.sp < numFree then .goPanic "index out of range"
      else
        let free := (List.range numFree).map
          (fun i => vm.stackGet (vm.sp - numFree + i))
        VM.push { vm with sp := vm.sp - numFree } (.ClosureObj ins nl np free)
    | _ => .vmError ("not a compiled function: " ++ c.typeTag)

/-- The dispatch switch of `VM.Run` in `src/vm/vm.go`, acting on the state
`vm` in which the current frame's `ip` was already advanced past the opcode
byte; `ins` and `ip` are the current instruction stream and the opcode's
byte position, for operand decoding.  An opcode with no dispatch case
(`OpMod` and the bitwise opcodes have none in `VM.Run`) falls through the
switch with no effect. -/
@[simp] def vmDispatch (vm : VM) (ins : List Nat) (ip : Nat) (op : Nat) : StepRes :=
  if op = opConstant ∨ op = opString then
        let constIndex := readUInt16 ins (ip + 1)
        let vm := vm.bumpIp 2
        match vm.getConstants.get? constIndex with
        | some c => vm.push c
        | none => .goPanic "index out of range"
      else if op = opAdd ∨ op = opSub ∨ op = opMul ∨ op = opDiv ∨
          op = opGreaterThan ∨ op = opEqual ∨ op = opNotEqual then
        vm.executeBinaryOperation op
      else if op = opMinus then
        match vm.popVal with
        | none => .goPanic "index out of range"
        | some (operand, vm1) =>
          match operand with
          | .Integer v => .cont (vm1.pushDiscardErr (.Integer (wrap64 (-v))))
          | .Float _ => .unmodeled "IEEE-754 float negation"
          | _ => .vmError ("unsupported type for negation: " ++ operand.typeTag)
      else if op = opBang then
        match vm.popVal with
        | none => .goPanic "index out of range"
        | some (operand, vm1) =>
          .cont (vm1.pushDiscardErr (.Boolean (!isTruthy operand)))
      else if op = opBitNot then
        match vm.popVal with
        | none => .goPanic "index out of range"
        | some (operand, vm1) =>
          match operand with
          | .Integer v => vm1.push (.Integer (-v - 1))
          | _ => .vmError ("bitwise NOT requires integer, got " ++ operand.typeTag)
      else if op = opTrue then vm.push (.Boolean true)
      else if op = opFalse then vm.push (.Boolean false)
      else if op = opNull then vm.push .Null
      else if op = opOut then
        match vm.popVal with
        | none => .goPanic "index out of range"
        | some (val, vm1) =>
          match val with
          | .GoNil => .goPanic "invalid memory address or nil pointer dereference"
          | _ =>
            match val.inspect with
            | some s => .cont { vm1 with output := vm1.output ++ [s] }
            | none => .unmodeled "nondeterministic Inspect output"
      else if op = opGetGlobal then
        let globalIndex := readUInt16 ins (ip + 1)
        let vm := vm.bumpIp 2
        vm.push (globalsGet vm.globals globalIndex)
      else if op = opSetGlobal then
        let globalIndex := readUInt16 ins (ip + 1)
        let vm := vm.bumpIp 2
        match vm.popVal with
        | none => .goPanic "index out of range"
        | some (val, vm1) =>
          .cont { vm1 with
            globals := globalsSet vm1.globals globalIndex val }
      else if op = opGetLocal then
        let localIndex := ins.getD (ip + 1) 0
        let vm := vm.bumpIp 1
        match vm.frames with
        | [] => .goPanic "index out of range"
        | f :: _ =>
          if f.basePointer + localIndex ≥ StackSize then
            .goPanic "index out of range"
          else vm.push (vm.stackGet (f.basePointer + localIndex))
      else if op = opSetLocal then
        let localIndex := ins.getD (ip + 1) 0
        let vm := vm.bumpIp 1
        match vm.frames with
        | [] => .goPanic "index out of range"
        | f :: _ =>
          match vm.popVal with
          | none => .goPanic "index out of range"
          | some (val, vm1) =>
            if f.basePointer + localIndex ≥ StackSize then
              .goPanic "index out of range"
            else .cont (vm1.setStack (f.basePointer + localIndex) val)
      else if op = opGetBuiltin then
        let builtinIndex := ins.getD (ip + 1) 0
        let vm := vm.bumpIp 1
        if builtinIndex < BuiltinNames.length then
          vm.push (.BuiltinNamed builtinIndex)
        else
          .vmError ("builtin function not found at index " ++ toString builtinIndex)
      else if op = opArray then
        let numElements := readUInt16 ins (ip + 1)
        let vm := vm.bumpIp 2
        match vm.buildArray numElements with
        | none => .goPanic "index out of range"
        | some array => VM.push { vm with sp := vm.sp - numElements } array
      else if op = opHash then
        let numElements := readUInt16 ins (ip + 1)
        let vm := vm.bumpIp 2
        match vm.buildHash numElements with
        | none => .goPanic "index out of range"
        | some (.error e) => .vmError e
        | some (.ok hash) => VM.push { vm with sp := vm.sp - numElements } hash
      else if op = opIndex then
        match vm.popVal with
        | none => .goPanic "index out of range"
        | some (index, vm1) =>
          match vm1.popVal with
          | none => .goPanic "index out of range"
          | some (left, vm2) => vm2.executeIndexExpression left index
      else if op = opMember then
        let constIndex := readUInt16 ins (ip + 1)
        let vm := vm.bumpIp 2
        match vm.getConstants.get? constIndex with
        | some (.Str memberName) =>
          match vm.popVal with
          | none => .goPanic "index out of range"
          | some (obj, vm1) => vm1.executeMemberExpression obj memberName
        | some _ => .goPanic "interface conversion"
        | none => .goPanic "index out of range"
      else if op = opJump then
        let pos := readUInt16 ins (ip + 1)
        .cont (vm.withFrameIp ((pos : Int) - 1))
      else if op = opJumpNotTruthy then
        let pos := readUInt16 ins (ip + 1)
        let vm := vm.bumpIp 2
        match vm.popVal with
        | none => .goPanic "index out of range"
        | some (condition, vm1) =>
          if !isTruthy condition then .cont (vm1.withFrameIp ((pos : Int) - 1))
          else .cont vm1
      else if op = opJumpTruthy then
        let pos := readUInt16 ins (ip + 1)
        let vm := vm.bumpIp 2
        if isTruthy vm.stackTop then .cont (vm.withFrameIp ((pos : Int) - 1))
        else .cont vm
      else if op = opDup then
        if vm.sp = 0 then .vmError "stack empty for OpDup"
        else .cont (vm.pushDiscardErr (vm.stackGet (vm.sp - 1)))
      else if op = opCatch then
        let pos := readUInt16 ins (ip + 1)
        let vm := vm.bumpIp 2
        .cont { vm with handlers := pos :: vm.handlers }
      else if op = opThrow then
        if vm.sp = 0 then .vmError "throw with empty stack"
        else
          match vm.handlers with
          | [] =>
            match vm.popVal with
            | none => .goPanic "index out of range"
            | some (errObj, _) =>
              match errObj.inspect with
              | some s => .vmError ("uncaught throw: " ++ s)
              | none => .unmodeled "nondeterministic Inspect output"
          | handlerPos :: restHandlers =>
            match vm.popVal with
            | none => .goPanic "index out of range"
            | some (thrown, vm1) =>
              let vm2 := { vm1 with handlers := restHandlers }
              let vm3 := vm2.pushDiscardErr thrown
              .cont (vm3.withFrameIp ((handlerPos : Int) - 1))
      else if op = opEndCatch then
        match vm.handlers with
        | [] => .vmError "OpEndCatch without OpCatch"
        | _ :: restHandlers => .cont { vm with handlers := restHandlers }
      else if op = opCall then
        let numArgs := ins.getD (ip + 1) 0
        let vm := vm.bumpIp 1
        if vm.sp < numArgs + 1 then .goPanic "index out of range"
        else
          let callee := vm.stackGet (vm.sp - 1 - numArgs)
          match callee with
          | .ClosureObj fnIns numLocals numParameters free =>
            if numArgs ≠ numParameters then
              .vmError ("wrong number of arguments: want=" ++
                toString numParameters ++ ", got=" ++ toString numArgs)
            else if vm.frames.length ≥ MaxFrames then
              .goPanic "index out of range"
            else
              let newFrame : Frame :=
                { instructions := fnIns, fnConstants := none, free := free,
                  numLocals := numLocals, ip := -1,
                  basePointer := vm.sp - numArgs }
              .cont { vm with
                frames := newFrame :: vm.frames,
                sp := newFrame.basePointer + numLocals }
          | .BuiltinArrayLen elems =>
            let vm1 := { vm with sp := vm.sp - numArgs - 1 }
            .cont (vm1.pushDiscardErr (.Integer (elems.length : Int)))
          | .BuiltinArrayPush _ =>
            if numArgs ≠ 1 then
              let vm1 := { vm with sp := vm.sp - numArgs - 1 }
              .cont (vm1.pushDiscardErr (.ErrorObj "wrong number of arguments"))
            else .unmodeled "in-place array mutation through aliasing"
          | .BuiltinNamed idx =>
            .unmodeled ("host builtin " ++ toString idx)
          | _ => .vmError ("calling non-function: " ++ callee.typeTag)
      else if op = opSpawn then .unmodeled "spawn goroutine"
      else if op = opClosure then
        let constIndex := readUInt16 ins (ip + 1)
        let numFree := ins.getD (ip + 3) 0
        let vm := vm.bumpIp 3
        vm.pushClosure constIndex numFree
      else if op = opGetFree then
        let freeIndex := ins.getD (ip + 1) 0
        let vm := vm.bumpIp 1
        match vm.frames with
        | [] => .goPanic "index out of range"
        | f :: _ =>
          match f.free.get? freeIndex with
          | some v => vm.push v
          | none => .goPanic "index out of range"
      else if op = opSetFree then
        let freeIndex := ins.getD (ip + 1) 0
        let vm := vm.bumpIp 1
        match vm.popVal with
        | none => .goPanic "index out of range"
        | some (val, vm1) =>
          match vm1.frames with
          | [] => .goPanic "index out of range"
          | f :: rest =>
            if freeIndex < f.free.length then
              .cont { vm1 with
                frames := { f with free := f.free.set freeIndex val } :: rest }
            else .goPanic "index out of range"
      else if op = opReturnValue then
        match vm.popVal with
        | none => .goPanic "index out of range"
        | some (returnValue, vm1) =>
          match vm1.frames with
          | [] => .goPanic "index out of range"
          | popped :: rest =>
            let vm2 := { vm1 with frames := rest }
            if rest.isEmpty then
              .done (VM.pushDiscardErr { vm2 with sp := 0 } returnValue)
            else if popped.basePointer = 0 then .goPanic "index out of range"
            else
              VM.push { vm2 with sp := popped.basePointer - 1 } returnValue
      else if op = opReturn then
        match vm.frames with
        | [] => .goPanic "index out of range"
        | popped :: rest =>
          let vm2 := { vm with frames := rest }
          if rest.isEmpty then
            .done (VM.pushDiscardErr { vm2 with sp := 0 } .Null)
          else if popped.basePointer = 0 then .goPanic "index out of range"
          else VM.push { vm2 with sp := popped.basePointer - 1 } .Null
      else if op = opPop then
        match vm.popVal with
        | none => .goPanic "index out of range"
        | some (_, vm1) => .cont vm1
      else if op = opImport then .unmodeled "module import (file I/O)"
      else
        .cont vm

/-- One iteration of the fetch/decode/dispatch loop (the body of `VM.Run`
in `src/vm/vm.go`).  The loop halts (`done`, returning nil) when no frame
remains or the current frame's `ip` has reached the end of its
instructions; otherwise `ip` advances past the opcode byte, which is
dispatched through `vmDispatch`. -/
@[simp] def vmStep (vm0 : VM) : StepRes :=
  match vm0.frames with
  | [] => .done vm0
  | frame :: restFrames =>
    if frame.ip ≥ (frame.instructions.length : Int) - 1 then .done vm0
    else
      vmDispatch
        { vm0 with frames := { frame with ip := frame.ip + 1 } :: restFrames }
        frame.instructions (frame.ip + 1).toNat
        (frame.instructions.getD (frame.ip + 1).toNat 0)

/-- Fuel-bounded iteration of `vmStep` (the `for` loop of `VM.Run`). -/
@[simp] def runLoop : Nat → VM → StepRes
  | 0, _ => .noFuel
  | fuel + 1, vm =>
    match vmStep vm with
    | .cont vm2 => runLoop fuel vm2
    | r => r

/-- Iterate `vmStep` exactly `k` times, returning the reached state (or the
stopping outcome if the loop ends earlier). -/
@[simp] def stepN : Nat → VM → StepRes
  | 0, vm => .cont vm
  | k + 1, vm =>
    match vmStep vm with
    | .cont vm2 => stepN k vm2
    | r => r

/-- The opcode the run loop would dispatch next: the byte at `ip + 1` of the
current frame, or `none` when the loop would halt instead. -/
@[simp] def fetchOp (vm : VM) : Option Nat :=
  match vm.frames with
  | [] => none
  | f :: _ =>
    if f.ip ≥ (f.instructions.length : Int) - 1 then none
    else some (f.instructions.getD (f.ip + 1).toNat 0)

/-- Unfold one continuing iteration of the run loop. -/
theorem runLoop_cont {vm vm2 : VM} {fuel : Nat} (h : vmStep vm = .cont vm2) :
    runLoop (fuel + 1) vm = runLoop fuel vm2 := by
  have hu : runLoop (fuel + 1) vm =
      (match vmStep vm with | .cont v => runLoop fuel v | r => r) := rfl
  rw [hu, h]

/-- The run loop stops when the step halts normally. -/
theorem runLoop_done {vm vm2 : VM} {fuel : Nat} (h : vmStep vm = .done vm2) :
    runLoop (fuel + 1) vm = .done vm2 := by
  have hu : runLoop (fuel + 1) vm =
      (match vmStep vm with | .cont v => runLoop fuel v | r => r) := rfl
  rw [hu, h]

/-- The run loop stops on a Go runtime panic. -/
theorem runLoop_goPanic {vm : VM} {m : String} {fuel : Nat}
    (h : vmStep vm = .goPanic m) : runLoop (fuel + 1) vm = .goPanic m := by
  have hu : runLoop (fuel + 1) vm =
      (match vmStep vm with | .cont v => runLoop fuel v | r => r) := rfl
  rw [hu, h]

/-- The run loop stops on an error returned by a dispatch case. -/
theorem runLoop_vmError {vm : VM} {m : String} {fuel : Nat}
    (h : vmStep vm = .vmError m) : runLoop (fuel + 1) vm = .vmError m := by
  have hu : runLoop (fuel + 1) vm =
      (match vmStep vm with | .cont v => runLoop fuel v | r => r) := rfl
  rw [hu, h]

/-- Fresh VM over a compiled bytecode bundle (`vm.New`): the main frame
wraps the program's instructions, `ip = -1`, all slots nil. -/
@[simp] def VM.new (instructions : List Nat) (constants : List Object) : VM :=
  { constants := constants,
    stack := [],
    sp := 0,
    globals := [],
    frames := [{ instructions := instructions,
                 fnConstants := none,
                 free := [], numLocals := 0, ip := -1, basePointer := 0 }],
    handlers := [],
    output := [] }

/-- Lines printed by a completed run. -/
@[simp] def StepRes.outputOf : StepRes → Option (List String)
  | .done vm => some vm.output
  | _ => none

/-- Message of a Go runtime panic outcome. -/
@[simp] def StepRes.panicMsg : StepRes → Option String
  | .goPanic m => some m
  | _ => none

/-- Message of an error returned by the run loop. -/
@[simp] def StepRes.errorMsg : StepRes → Option String
  | .vmError m => some m
  | _ => none

/-- Final stack depth of a completed run. -/
@[simp] def StepRes.finalSp : StepRes → Option Nat
  | .done vm => some vm.sp
  | _ => none

/-!
The abstract syntax tree (`ast` package).  The AST itself lives in an
external-collaborator package; the constructors modelled here are the ones
pattern-matched by the compiler in `src/unnamed/part_002` that the claims
exercise, with the same shapes (the claims' programs use no function
literals, calls, prefix operators, hashes, index or member syntax, so those
constructors are omitted).  Statement and expression lists are spelled as
dedicated mutual types to keep the recursion structural.
-/

mutual
/-- Expressions (`ast.Expression`). -/
inductive Expr where
  | IntegerLiteral (value : Int)
  | StringLiteral (value : String)
  | BooleanLit (value : Bool)
  | Identifier (name : String)
  | InfixExpression (operator : String) (left right : Expr)
  | ArrayLiteral (elements : ExprList)
  | TryExpression (block : StmtList) (catchParameter : Option String)
      (catchBlock : StmtList)

/-- List of expressions. -/
inductive ExprList where
  | nil
  | cons (e : Expr) (es : ExprList)

/-- Statements (`ast.Statement`). -/
inductive Stmt where
  | ExpressionStatement (e : Expr)
  | SetStatement (isConst : Bool) (name : String) (value : Expr)
  | AssignStatement (name : String) (value : Expr)
  | OutStatement (value : Expr)
  | ThrowStatement (value : Expr)
  | ForInStatement (loopVar : String) (iterable : Expr) (body : StmtList)
  | BlockStatement (statements : StmtList)

/-- List of statements. -/
inductive StmtList where
  | nil
  | cons (s : Stmt) (ss : StmtList)
end

/-- Scope kind of a symbol (§4.2 / §3 Symbol). -/
inductive SymbolScope where
  | GlobalScope
  | LocalScope
  | FreeScope
  | BuiltinScope
deriving DecidableEq, Repr

/-- Modelled from the spec: the compiler's symbol table source file is not
under `src/` (only its callers in `src/unnamed/part_002` are); this is §3
"Symbol" and §4.2 "Symbol table" verbatim.  A symbol is
{name, scope, index, is_const}. -/
structure Symbol where
  name : String
  scope : SymbolScope
  index : Nat
  isConst : Bool
deriving DecidableEq, Repr

/-- Modelled from the spec: nested symbol-table scopes (§4.2) — flat
per-scope store plus an outer pointer, a `num_definitions` counter that
counts only Global+Local definitions, and the `FreeSymbols` list of
originals promoted into this scope. -/
inductive SymbolTable where
  | mk (outer : Option SymbolTable) (store : List (String × Symbol))
      (numDefinitions : Nat) (freeSymbols : List Symbol)

/-- Outer scope of a symbol table. -/
@[simp] def SymbolTable.outer : SymbolTable → Option SymbolTable
  | .mk o _ _ _ => o

/-- Store of a symbol table. -/
@[simp] def SymbolTable.store : SymbolTable → List (String × Symbol)
  | .mk _ s _ _ => s

/-- Number of Global+Local definitions in a symbol table scope. -/
@[simp] def SymbolTable.numDefinitions : SymbolTable → Nat
  | .mk _ _ n _ => n

/-- FreeSymbols list of a symbol table scope. -/
@[simp] def SymbolTable.freeSymbols : SymbolTable → List Symbol
  | .mk _ _ _ f => f

/-- Empty top-level symbol table (`NewSymbolTable`). -/
@[simp] def SymbolTable.new : SymbolTable :=
  .mk none [] 0 []

/-- Enclosed symbol table (`NewEnclosedSymbolTable`). -/
@[simp] def SymbolTable.newEnclosed (outer : SymbolTable) : SymbolTable :=
  .mk (some outer) [] 0 []

/-- Insert-or-replace a name in a scope's store (Go map assignment). -/
@[simp] def storeInsert (store : List (String × Symbol)) (name : String)
    (sym : Symbol) : List (String × Symbol) :=
  if (store.find? (fun p => p.1 = name)).isSome then
    store.map (fun p => if p.1 = name then (name, sym) else p)
  else
    store ++ [(name, sym)]

/-- Lookup a name in a scope's own store. -/
@[simp] def storeLookup (store : List (String × Symbol)) (name : String) :
    Option Symbol :=
  (store.find? (fun p => p.1 = name)).map (fun p => p.2)

/-- Modelled from the spec: `Define(name)` assigns Global in the top scope
and Local elsewhere, at index `num_definitions`, incrementing it (§4.2). -/
@[simp] def SymbolTable.define (st : SymbolTable) (name : String) :
    Symbol × SymbolTable :=
  match st with
  | .mk outer store numDefs free =>
    let scope := match outer with
      | none => SymbolScope.GlobalScope
      | some _ => SymbolScope.LocalScope
    let sym : Symbol :=
      { name := name, scope := scope, index := numDefs, isConst := false }
    (sym, .mk outer (storeInsert store name sym) (numDefs + 1) free)

/-- Modelled from the spec: `DefineConst` is `Define` with `is_const` set
(§4.2). -/
@[simp] def SymbolTable.defineConst (st : SymbolTable) (name : String) :
    Symbol × SymbolTable :=
  match st.define name with
  | (sym, st2) =>
    let csym := { sym with isConst := true }
    match st2 with
    | .mk outer store numDefs free =>
      (csym, .mk outer (storeInsert store name csym) numDefs free)

/-- Modelled from the spec: `DefineBuiltin(idx, name)` assigns Builtin scope
at the given index without touching `num_definitions` (§4.2). -/
@[simp] def SymbolTable.defineBuiltin (st : SymbolTable) (index : Nat)
    (name : String) : SymbolTable :=
  match st with
  | .mk outer store numDefs free =>
    let sym : Symbol :=
      { name := name, scope := .BuiltinScope, index := index, isConst := false }
    .mk outer (storeInsert store name sym) numDefs free

/-- Modelled from the spec: `Resolve(name)` (§4.2) — own store first; else
ask the outer chain; a Global or Builtin answer passes through unchanged; a
Local/Free answer from an outer scope is promoted to a Free symbol of the
current scope, appending the original to `FreeSymbols`.  The possibly
mutated table is returned alongside the symbol. -/
@[simp] def SymbolTable.resolve (st : SymbolTable) (name : String) :
    Option (Symbol × SymbolTable) :=
  match st with
  | .mk outer store numDefs free =>
    match storeLookup store name with
    | some sym => some (sym, .mk outer store numDefs free)
    | none =>
      match outer with
      | none => none
      | some o =>
        match o.resolve name with
        | none => none
        | some (sym, o2) =>
          if sym.scope = .GlobalScope ∨ sym.scope = .BuiltinScope then
            some (sym, .mk (some o2) store numDefs free)
          else
            let freeSym : Symbol :=
              { name := name, scope := .FreeScope, index := free.length,
                isConst := sym.isConst }
            some (freeSym,
              .mk (some o2) (storeInsert store name freeSym) numDefs
                (free ++ [sym]))

/-- Per-loop compiler record (`loopContext` in `src/unnamed/part_002`). -/
structure LoopContext where
  startPos : Nat
  breakPatches : List Nat
  continuePatches : List Nat

/-- Compiler state (`Compiler` in `src/unnamed/part_002`).  The head of
`scopes` is the current (innermost) instruction buffer, mirroring Go's
`scopes[scopeIndex]`; the head of `loopStack` is the innermost loop. -/
structure Compiler where
  constants : List Object
  symbolTable : SymbolTable
  scopes : List (List Nat)
  loopStack : List LoopContext

/-- Fresh compiler (`compiler.New`): the builtin names are pre-defined in
registration order, and one empty main scope is open. -/
@[simp] def Compiler.new : Compiler :=
  let st := (BuiltinNames.enum.foldl
    (fun t p => t.defineBuiltin p.1 p.2) SymbolTable.new)
  { constants := [], symbolTable := st, scopes := [[]], loopStack := [] }

/-- Current instruction buffer (`Compiler.currentInstructions`). -/
@[simp] def Compiler.currentInstructions (c : Compiler) : List Nat :=
  match c.scopes with
  | buf :: _ => buf
  | [] => []

/-- Replace the current instruction buffer. -/
@[simp] def Compiler.setCurrent (c : Compiler) (buf : List Nat) : Compiler :=
  match c.scopes with
  | _ :: rest => { c with scopes := buf :: rest }
  | [] => { c with scopes := [buf] }

/-- Append a constant, returning its index (`Compiler.addConstant`). -/
@[simp] def Compiler.addConstant (c : Compiler) (obj : Object) : Compiler × Nat :=
  ({ c with constants := c.constants ++ [obj] }, c.constants.length)

/-- Emit an instruction into the current buffer, returning its byte
position (`Compiler.emit`). -/
@[simp] def Compiler.emit (c : Compiler) (op : Nat) (operands : List Nat) :
    Compiler × Nat :=
  let pos := c.currentInstructions.length
  (c.setCurrent (c.currentInstructions ++ make op operands), pos)

/-- Overwrite bytes of the current buffer starting at a position (the loop
inside `Compiler.changeOperand`). -/
@[simp] def overwriteBytes (buf : List Nat) (pos : Nat) (repl : List Nat) : List Nat :=
  match repl with
  | [] => buf
  | b :: bs => overwriteBytes (buf.set pos b) (pos + 1) bs

/-- Re-encode the operand of a previously emitted instruction in place
(`Compiler.changeOperand`). -/
@[simp] def Compiler.changeOperand (c : Compiler) (opPos operand : Nat) : Compiler :=
  let buf := c.currentInstructions
  let op := buf.getD opPos 0
  c.setCurrent (overwriteBytes buf opPos (make op [operand]))

/-- Open a fresh compilation scope with an enclosed symbol table
(`Compiler.enterScope`). -/
@[simp] def Compiler.enterScope (c : Compiler) : Compiler :=
  { c with scopes := [] :: c.scopes,
           symbolTable := c.symbolTable.newEnclosed }

/-- Close the current compilation scope, returning its instruction buffer
and restoring the outer symbol table (`Compiler.leaveScope`). -/
@[simp] def Compiler.leaveScope (c : Compiler) : Compiler × List Nat :=
  let buf := c.currentInstructions
  let rest := match c.scopes with
    | _ :: r => r
    | [] => []
  ({ c with scopes := rest,
            symbolTable := c.symbolTable.outer.getD SymbolTable.new }, buf)

/-- Emit the scope-appropriate load for a symbol (`Compiler.loadSymbol`). -/
@[simp] def Compiler.loadSymbol (c : Compiler) (s : Symbol) : Compiler :=
  match s.scope with
  | .GlobalScope => (c.emit opGetGlobal [s.index]).1
  | .LocalScope => (c.emit opGetLocal [s.index]).1
  | .BuiltinScope => (c.emit opGetBuiltin [s.index]).1
  | .FreeScope => (c.emit opGetFree [s.index]).1

/-- Patch the innermost loop's pending break jumps to `afterPos` and its
continue jumps to the loop start (`Compiler.patchLoopExits`). -/
@[simp] def Compiler.patchLoopExits (c : Compiler) (afterPos : Nat) : Compiler :=
  match c.loopStack with
  | [] => c
  | ctx :: _ =>
    let c2 := ctx.breakPatches.foldl
      (fun acc pos => acc.changeOperand pos afterPos) c
    ctx.continuePatches.foldl
      (fun acc pos => acc.changeOperand pos ctx.startPos) c2

/-- Length of an expression list. -/
@[simp] def ExprList.length : ExprList → Nat
  | .nil => 0
  | .cons _ es => 1 + es.length

/-- Push a fresh loop context (`append(c.loopStack, ...)`). -/
@[simp] def Compiler.pushLoop (c : Compiler) (startPos : Nat) : Compiler :=
  { c with loopStack :=
      { startPos := startPos, breakPatches := [], continuePatches := [] }
        :: c.loopStack }

/-- Pop the innermost loop context. -/
@[simp] def Compiler.popLoop (c : Compiler) : Compiler :=
  match c.loopStack with
  | [] => c
  | _ :: rest => { c with loopStack := rest }

/-- Replace the compiler's symbol table. -/
@[simp] def Compiler.withSymbols (c : Compiler) (st : SymbolTable) : Compiler :=
  { c with symbolTable := st }

mutual
/-- The expression cases of `Compiler.Compile` in `src/unnamed/part_002`:
literals, identifier resolution, the special `<`, `&&` and `||` lowerings,
the operator table of the generic infix case, array literals, and the
try/catch lowering (which for a named catch parameter enters a fresh
compilation scope whose buffer `leaveScope` then discards). -/
@[simp] def compileExpr (c : Compiler) : Expr → Except String Compiler
  | .IntegerLiteral v =>
    let (c1, idx) := c.addConstant (.Integer v)
    .ok (c1.emit opConstant [idx]).1
  | .StringLiteral s =>
    let (c1, idx) := c.addConstant (.Str s)
    .ok (c1.emit opString [idx]).1
  | .BooleanLit b =>
    if b then .ok (c.emit opTrue []).1 else .ok (c.emit opFalse []).1
  | .Identifier name =>
    match c.symbolTable.resolve name with
    | none => .error ("undefined variable " ++ name)
    | some (sym, st2) => .ok ((c.withSymbols st2).loadSymbol sym)
  | .InfixExpression operator left right =>
    if operator = "<" then
      match compileExpr c right with
      | .error e => .error e
      | .ok c1 =>
        match compileExpr c1 left with
        | .error e => .error e
        | .ok c2 => .ok (c2.emit opGreaterThan []).1
    else if operator = "&&" then
      match compileExpr c left with
      | .error e => .error e
      | .ok c1 =>
        let (c2, jumpPos) := c1.emit opJumpNotTruthy [9999]
        match compileExpr c2 right with
        | .error e => .error e
        | .ok c3 => .ok (c3.changeOperand jumpPos c3.currentInstructions.length)
    else if operator = "||" then
      match compileExpr c left with
      | .error e => .error e
      | .ok c1 =>
        let (c2, jumpPos) := c1.emit opJumpTruthy [9999]
        match compileExpr c2 right with
        | .error e => .error e
        | .ok c3 => .ok (c3.changeOperand jumpPos c3.currentInstructions.length)
    else
      match compileExpr c left with
      | .error e => .error e
      | .ok c1 =>
      match compileExpr c1 right with
      | .error e => .error e
      | .ok c2 =>
      if operator = "+" then .ok (c2.emit opAdd []).1
      else if operator = "-" then .ok (c2.emit opSub []).1
      else if operator = "*" then .ok (c2.emit opMul []).1
      else if operator = "/" then .ok (c2.emit opDiv []).1
      else if operator = "%" then .ok (c2.emit opMod []).1
      else if operator = ">" then .ok (c2.emit opGreaterThan []).1
      else if operator = "==" then .ok (c2.emit opEqual []).1
      else if operator = "!=" then .ok (c2.emit opNotEqual []).1
      else if operator = "&" then .ok (c2.emit opBitAnd []).1
      else if operator = "|" then .ok (c2.emit opBitOr []).1
      else if operator = "^" then .ok (c2.emit opBitXor []).1
      else if operator = "<<" then .ok (c2.emit opLshift []).1
      else if operator = ">>" then .ok (c2.emit opRshift []).1
      else .error ("unknown operator " ++ operator)
  | .ArrayLiteral elements =>
    match compileExprList c elements with
    | .error e => .error e
    | .ok c1 => .ok (c1.emit opArray [elements.length]).1
  | .TryExpression block catchParameter catchBlock =>
    let (c1, catchEmitPos) := c.emit opCatch [9999]
    match compileBlockPreservingLast c1 block with
    | .error e => .error e
    | .ok c2 =>
    let (c3, _) := c2.emit opEndCatch []
    let (c4, jumpOverPos) := c3.emit opJump [9999]
    let catchProloguePos := c4.currentInstructions.length
    match catchParameter with
    | some p =>
      let c5 := c4.enterScope
      let (paramSym, st2) := c5.symbolTable.define p
      let (c6, _) := (c5.withSymbols st2).emit opSetLocal [paramSym.index]
      match compileBlockPreservingLast c6 catchBlock with
      | .error e => .error e
      | .ok c7 =>
        let (c8, _) := c7.leaveScope
        let afterCatchPos := c8.currentInstructions.length
        let c9 := c8.changeOperand catchEmitPos catchProloguePos
        .ok (c9.changeOperand jumpOverPos afterCatchPos)
    | none =>
      let (c5, _) := c4.emit opPop []
      match compileBlockPreservingLast c5 catchBlock with
      | .error e => .error e
      | .ok c6 =>
        let afterCatchPos := c6.currentInstructions.length
        let c7 := c6.changeOperand catchEmitPos catchProloguePos
        .ok (c7.changeOperand jumpOverPos afterCatchPos)

/-- Compile each element of an expression list in order (the loop of the
`ast.ArrayLiteral` case). -/
@[simp] def compileExprList (c : Compiler) : ExprList → Except String Compiler
  | .nil => .ok c
  | .cons e es =>
    match compileExpr c e with
    | .error e2 => .error e2
    | .ok c1 => compileExprList c1 es

/-- The statement cases of `Compiler.Compile` in `src/unnamed/part_002`.
The `ast.ForInStatement` case enters a fresh compilation scope, emits the
whole lowered loop into that scope's buffer, and ends with `leaveScope`,
whose returned buffer it discards. -/
@[simp] def compileStmt (c : Compiler) : Stmt → Except String Compiler
  | .ExpressionStatement e =>
    match compileExpr c e with
    | .error e2 => .error e2
    | .ok c1 => .ok (c1.emit opPop []).1
  | .OutStatement v =>
    match compileExpr c v with
    | .error e => .error e
    | .ok c1 => .ok (c1.emit opOut []).1
  | .ThrowStatement v =>
    match compileExpr c v with
    | .error e => .error e
    | .ok c1 => .ok (c1.emit opThrow []).1
  | .SetStatement isConst name value =>
    match compileExpr c value with
    | .error e => .error e
    | .ok c1 =>
    let (symbol, st2) :=
      if isConst then c1.symbolTable.defineConst name
      else c1.symbolTable.define name
    let c2 := c1.withSymbols st2
    match symbol.scope with
    | .GlobalScope => .ok (c2.emit opSetGlobal [symbol.index]).1
    | .LocalScope => .ok (c2.emit opSetLocal [symbol.index]).1
    | .FreeScope => .ok (c2.emit opSetFree [symbol.index]).1
    | .BuiltinScope => .ok c2
  | .AssignStatement name value =>
    match compileExpr c value with
    | .error e2 => .error e2
    | .ok c1 =>
    match c1.symbolTable.resolve name with
    | none => .error ("undefined variable " ++ name)
    | some (symbol, st2) =>
      if symbol.isConst then .error ("cannot assign to constant " ++ name)
      else
        let c2 := c1.withSymbols st2
        match symbol.scope with
        | .GlobalScope => .ok (c2.emit opSetGlobal [symbol.index]).1
        | .LocalScope => .ok (c2.emit opSetLocal [symbol.index]).1
        | .FreeScope => .ok (c2.emit opSetFree [symbol.index]).1
        | .BuiltinScope => .ok c2
  | .BlockStatement statements => compileStmtList c statements
  | .ForInStatement loopVar iterable body =>
    let c1 := c.enterScope
    match compileExpr c1 iterable with
    | .error e => .error e
    | .ok c2 =>
      let (iterSym, stA) := c2.symbolTable.define "__for_iter"
      let (c3, _) := (c2.withSymbols stA).emit opSetLocal [iterSym.index]
      let (idxSym, stB) := c3.symbolTable.define "__for_idx"
      let (_, stC) := (SymbolTable.define stB loopVar)
      let c4 := c3.withSymbols stC
      let (c5, zeroIdx) := c4.addConstant (.Integer 0)
      let (c6, _) := c5.emit opConstant [zeroIdx]
      let (c7, _) := c6.emit opSetLocal [idxSym.index]
      let beforeLoopPos := c7.currentInstructions.length
      let c8 := c7.pushLoop beforeLoopPos
      let (c9, _) := c8.emit opGetLocal [iterSym.index]
      let (c10, lenIdx) := c9.addConstant (.Str "len")
      let (c11, _) := c10.emit opMember [lenIdx]
      let (c12, _) := c11.emit opCall [0]
      let (c13, _) := c12.emit opGetLocal [idxSym.index]
      let (c14, _) := c13.emit opGreaterThan []
      let (c15, jumpNotTruthyPos) := c14.emit opJumpNotTruthy [9999]
      let (c16, _) := c15.emit opGetLocal [iterSym.index]
      let (c17, _) := c16.emit opGetLocal [idxSym.index]
      let (c18, _) := c17.emit opIndex []
      let (loopVarSym, stD) :=
        match c18.symbolTable.resolve loopVar with
        | some (sym, st) => (sym, st)
        | none =>
          ({ name := loopVar, scope := .LocalScope, index := 0,
             isConst := false }, c18.symbolTable)
      let (c19, _) := (c18.withSymbols stD).emit opSetLocal [loopVarSym.index]
      match compileStmtList c19 body with
      | .error e => .error e
      | .ok c20 =>
        let (c21, _) := c20.emit opGetLocal [idxSym.index]
        let (c22, oneIdx) := c21.addConstant (.Integer 1)
        let (c23, _) := c22.emit opConstant [oneIdx]
        let (c24, _) := c23.emit opAdd []
        let (c25, _) := c24.emit opSetLocal [idxSym.index]
        let (c26, _) := c25.emit opJump [beforeLoopPos]
        let afterBodyPos := c26.currentInstructions.length
        let c27 := c26.changeOperand jumpNotTruthyPos afterBodyPos
        let c28 := c27.patchLoopExits afterBodyPos
        let c29 := c28.popLoop
        .ok c29.leaveScope.1

/-- Compile a statement list in order (the `ast.Program` and
`ast.BlockStatement` loops). -/
@[simp] def compileStmtList (c : Compiler) : StmtList → Except String Compiler
  | .nil => .ok c
  | .cons s ss =>
    match compileStmt c s with
    | .error e => .error e
    | .ok c1 => compileStmtList c1 ss

/-- Compile a block leaving the last expression-statement's value on the
stack (`Compiler.compileBlockPreservingLast`). -/
@[simp] def compileBlockPreservingLast (c : Compiler) : StmtList → Except String Compiler
  | .nil => .ok c
  | .cons (.ExpressionStatement e) .nil => compileExpr c e
  | .cons s .nil => compileStmt c s
  | .cons s rest =>
    match compileStmt c s with
    | .error e => .error e
    | .ok c1 => compileBlockPreservingLast c1 rest
end

/-- Compile a whole program (`compiler.New`, `Compile(ast.Program)`,
`Bytecode()`), yielding the main instruction stream and the constant
pool. -/
@[simp] def compileProgram (stmts : StmtList) : Except String (List Nat × List Object) :=
  match compileStmtList Compiler.new stmts with
  | .error e => .error e
  | .ok c => .ok (c.currentInstructions, c.constants)

/-- Compile a program and run it on a fresh VM with the given fuel. -/
@[simp] def runProgram (stmts : StmtList) (fuel : Nat) : StepRes :=
  match compileProgram stmts with
  | .error e => .unmodeled ("compile error: " ++ e)
  | .ok (ins, consts) => runLoop fuel (VM.new ins consts)

/-- The program `set xs = [10,20,30]; set s = 0; for x in xs { s = s + x; }
out s;`. -/
@[simp] def progForInSum : StmtList :=
  .cons (.SetStatement false "xs" (.ArrayLiteral
      (.cons (.IntegerLiteral 10) (.cons (.IntegerLiteral 20)
        (.cons (.IntegerLiteral 30) .nil)))))
  (.cons (.SetStatement false "s" (.IntegerLiteral 0))
  (.cons (.ForInStatement "x" (.Identifier "xs")
      (.cons (.AssignStatement "s"
        (.InfixExpression "+" (.Identifier "s") (.Identifier "x"))) .nil))
  (.cons (.OutStatement (.Identifier "s")) .nil)))

/-- The program `set r = try { throw "boom"; 1 } catch (e) { e + "!" };
out r;`. -/
@[simp] def progTryCatch : StmtList :=
  .cons (.SetStatement false "r" (.TryExpression
      (.cons (.ThrowStatement (.StringLiteral "boom"))
        (.cons (.ExpressionStatement (.IntegerLiteral 1)) .nil))
      (some "e")
      (.cons (.ExpressionStatement
        (.InfixExpression "+" (.Identifier "e") (.StringLiteral "!"))) .nil)))
  (.cons (.OutStatement (.Identifier "r")) .nil)

/-- The program `out 1 + 2 * 3; out (1 + 2) * 3; out 10 / 3;` (ASTs shaped
by the parser's precedence table in `src/code/code.go`, where `*` and `/`
bind tighter than `+`). -/
@[simp] def progArith : StmtList :=
  .cons (.OutStatement (.InfixExpression "+" (.IntegerLiteral 1)
      (.InfixExpression "*" (.IntegerLiteral 2) (.IntegerLiteral 3))))
  (.cons (.OutStatement (.InfixExpression "*"
      (.InfixExpression "+" (.IntegerLiteral 1) (.IntegerLiteral 2))
      (.IntegerLiteral 3)))
  (.cons (.OutStatement
      (.InfixExpression "/" (.IntegerLiteral 10) (.IntegerLiteral 3))) .nil))

/-- The program `out 10 % 3;`. -/
@[simp] def progMod : StmtList :=
  .cons (.OutStatement
    (.InfixExpression "%" (.IntegerLiteral 10) (.IntegerLiteral 3))) .nil

/-- The program `out 10 / 0;`. -/
@[simp] def progDivZero : StmtList :=
  .cons (.OutStatement
    (.InfixExpression "/" (.IntegerLiteral 10) (.IntegerLiteral 0))) .nil

/-- The program `out 10 % 0;`. -/
@[simp] def progModZero : StmtList :=
  .cons (.OutStatement
    (.InfixExpression "%" (.IntegerLiteral 10) (.IntegerLiteral 0))) .nil

/-- The program `out (0 || "fallback");`. -/
@[simp] def progOrFallback : StmtList :=
  .cons (.OutStatement (.InfixExpression "||" (.IntegerLiteral 0)
    (.StringLiteral "fallback"))) .nil

/-- The program `out (true && 42);`. -/
@[simp] def progAndValue : StmtList :=
  .cons (.OutStatement (.InfixExpression "&&" (.BooleanLit true)
    (.IntegerLiteral 42))) .nil

/-- The program `false && 1;`. -/
@[simp] def progAndUnderflow : StmtList :=
  .cons (.ExpressionStatement (.InfixExpression "&&" (.BooleanLit false)
    (.IntegerLiteral 1))) .nil

/-!
Evaluation lemmas: each concrete program of the claims is compiled and run
by `simp`-normalization through the embedded compiler and VM.
-/

set_option maxRecDepth 10000 in
set_option maxHeartbeats 4000000 in
/-- Compiling the for-in scenario: the enclosing instruction stream holds
only the two `set` statements and the final `out` — nothing between
`SetGlobal 1` and `GetGlobal 1` — while the constants the discarded loop
added (`0`, `"len"`, `1`) remain in the pool. -/
theorem compile_progForInSum :
    compileProgram progForInSum =
      .ok ([opConstant, 0, 0, opConstant, 0, 1, opConstant, 0, 2,
            opArray, 0, 3, opSetGlobal, 0, 0, opConstant, 0, 3,
            opSetGlobal, 0, 1, opGetGlobal, 0, 1, opOut],
        [.Integer 10, .Integer 20, .Integer 30, .Integer 0, .Integer 0,
         .Str "len", .Integer 1]) := by
  simp [List.enum, List.enumFrom, List.foldl, List.find?, List.map, List.set,
    List.length, List.append, List.replicate, List.foldr, List.getD,
    List.get?, List.zip, List.zipWith]
  all_goals decide

set_option maxRecDepth 10000 in
set_option maxHeartbeats 4000000 in
/-- Running the for-in scenario prints `0`. -/
theorem run_progForInSum :
    (runProgram progForInSum 100).outputOf = some ["0"] := by
  simp [List.enum, List.enumFrom, List.foldl, List.find?, List.map, List.set,
    List.length, List.append, List.replicate, List.foldr, List.getD,
    List.get?, List.zip, List.zipWith]
  all_goals decide

set_option maxRecDepth 10000 in
set_option maxHeartbeats 4000000 in
/-- Compiling the try/catch scenario: after `Jump` nothing follows before
the position both the `Catch` operand and the `Jump` operand are patched to
(byte 14, the start of `SetGlobal 0`) — the catch prologue and catch block
were emitted into the discarded scope buffer. -/
theorem compile_progTryCatch :
    compileProgram progTryCatch =
      .ok ([opCatch, 0, 14, opString, 0, 0, opThrow, opConstant, 0, 1,
            opEndCatch, opJump, 0, 14, opSetGlobal, 0, 0,
            opGetGlobal, 0, 0, opOut],
        [.Str "boom", .Integer 1, .Str "!"]) := by
  simp [List.enum, List.enumFrom, List.foldl, List.find?, List.map, List.set,
    List.length, List.append, List.replicate, List.foldr, List.getD,
    List.get?, List.zip, List.zipWith]
  all_goals decide

set_option maxRecDepth 10000 in
set_option maxHeartbeats 4000000 in
/-- Running the try/catch scenario prints `boom`. -/
theorem run_progTryCatch :
    (runProgram progTryCatch 100).outputOf = some ["boom"] := by
  simp [List.enum, List.enumFrom, List.foldl, List.find?, List.map, List.set,
    List.length, List.append, List.replicate, List.foldr, List.getD,
    List.get?, List.zip, List.zipWith]
  all_goals decide

set_option maxRecDepth 10000 in
set_option maxHeartbeats 4000000 in
/-- Running `out 1 + 2 * 3; out (1 + 2) * 3; out 10 / 3;` prints 7, 9, 3. -/
theorem run_progArith :
    (runProgram progArith 100).outputOf = some ["7", "9", "3"] := by
  simp [List.enum, List.enumFrom, List.foldl, List.find?, List.map, List.set,
    List.length, List.append, List.replicate, List.foldr, List.getD,
    List.get?, List.zip, List.zipWith]
  all_goals decide

set_option maxRecDepth 10000 in
set_option maxHeartbeats 4000000 in
/-- Running `out 10 % 3;` prints `3`: the compiler emits `OpMod`, but
`VM.Run` has no dispatch case for it, so the opcode is skipped with both
operands left on the stack and `Out` pops the right operand `3`. -/
theorem run_progMod :
    (runProgram progMod 100).outputOf = some ["3"] := by
  simp [List.enum, List.enumFrom, List.foldl, List.find?, List.map, List.set,
    List.length, List.append, List.replicate, List.foldr, List.getD,
    List.get?, List.zip, List.zipWith]
  all_goals decide

set_option maxRecDepth 10000 in
set_option maxHeartbeats 4000000 in
/-- Running `out 10 / 0;` is a Go runtime panic (`OpDiv` divides with no
zero check), not an error returned by the run loop. -/
theorem run_progDivZero :
    runProgram progDivZero 100 = .goPanic "integer divide by zero" := by
  simp [List.enum, List.enumFrom, List.foldl, List.find?, List.map, List.set,
    List.length, List.append, List.replicate, List.foldr, List.getD,
    List.get?, List.zip, List.zipWith]
  all_goals decide

set_option maxRecDepth 10000 in
set_option maxHeartbeats 4000000 in
/-- Running `out 10 % 0;` completes without any error and prints `0`: the
modulo-by-zero check in `executeIntegerBinaryOp` is unreachable because
`OpMod` is never dispatched. -/
theorem run_progModZero :
    (runProgram progModZero 100).outputOf = some ["0"] := by
  simp [List.enum, List.enumFrom, List.foldl, List.find?, List.map, List.set,
    List.length, List.append, List.replicate, List.foldr, List.getD,
    List.get?, List.zip, List.zipWith]
  all_goals decide

set_option maxRecDepth 10000 in
set_option maxHeartbeats 4000000 in
/-- Running `out (0 || "fallback");` prints `0`: `isTruthy` holds of the
Integer `0`, so `JumpTruthy` short-circuits with `0` still on the stack. -/
theorem run_progOrFallback :
    (runProgram progOrFallback 100).outputOf = some ["0"] := by
  simp [List.enum, List.enumFrom, List.foldl, List.find?, List.map, List.set,
    List.length, List.append, List.replicate, List.foldr, List.getD,
    List.get?, List.zip, List.zipWith]
  all_goals decide

set_option maxRecDepth 10000 in
set_option maxHeartbeats 4000000 in
/-- Running `out (true && 42);` prints `42`. -/
theorem run_progAndValue :
    (runProgram progAndValue 100).outputOf = some ["42"] := by
  simp [List.enum, List.enumFrom, List.foldl, List.find?, List.map, List.set,
    List.length, List.append, List.replicate, List.foldr, List.getD,
    List.get?, List.zip, List.zipWith]
  all_goals decide

set_option maxRecDepth 10000 in
set_option maxHeartbeats 4000000 in
/-- Running `false && 1;` panics: `JumpNotTruthy` pops the non-truthy left
operand and jumps over the right operand, so the statement's `Pop` executes
with `sp = 0` and `VM.pop` reads `stack[-1]`. -/
theorem run_progAndUnderflow :
    runProgram progAndUnderflow 100 = .goPanic "index out of range" := by
  simp [List.enum, List.enumFrom, List.foldl, List.find?, List.map, List.set,
    List.length, List.append, List.replicate, List.foldr, List.getD,
    List.get?, List.zip, List.zipWith]
  all_goals decide

/-- A run that completed with output returned no error. -/
theorem errorMsg_of_outputOf {r : StepRes} {l : List String}
    (h : r.outputOf = some l) : r.errorMsg = none := by
  cases r <;> simp_all [StepRes.outputOf, StepRes.errorMsg]

/-!
The claims.
-/

/-- C1: the claim says the for-in scenario prints `60` with the emitted
loop code taking effect in the enclosing instruction stream.  On the code,
the `ast.ForInStatement` case emits the whole lowered loop into the fresh
buffer opened by `enterScope` and then drops `leaveScope`'s returned
buffer, so the loop contributes no instructions to the enclosing stream:
the compiled program is exactly the two `set`s followed by `out s` (with
the discarded loop's constants still in the pool), and running it prints
`0`, not `60`. -/
theorem forin_loop_code_discarded :
    (runProgram progForInSum 100).outputOf = some ["0"] ∧
    compileProgram progForInSum =
      .ok ([opConstant, 0, 0, opConstant, 0, 1, opConstant, 0, 2,
            opArray, 0, 3, opSetGlobal, 0, 0, opConstant, 0, 3,
            opSetGlobal, 0, 1, opGetGlobal, 0, 1, opOut],
        [.Integer 10, .Integer 20, .Integer 30, .Integer 0, .Integer 0,
         .Str "len", .Integer 1]) :=
  ⟨run_progForInSum, compile_progForInSum⟩

/-- C2: the claim says the try/catch scenario prints `boom!` with the
thrown value stored into the catch parameter's slot and the catch block
run.  On the code, when the catch clause names a parameter the compiler
emits the catch prologue and catch block into the fresh scope buffer opened
by `enterScope` and discards it at `leaveScope`, patching both the `Catch`
operand and the try-exit `Jump` to the same position just after the `Jump`;
after the throw, execution resumes directly at `SetGlobal`, so `r` is bound
to the raw thrown value and the program prints `boom`, not `boom!`. -/
theorem catch_parameter_block_discarded :
    (runProgram progTryCatch 100).outputOf = some ["boom"] ∧
    compileProgram progTryCatch =
      .ok ([opCatch, 0, 14, opString, 0, 0, opThrow, opConstant, 0, 1,
            opEndCatch, opJump, 0, 14, opSetGlobal, 0, 0,
            opGetGlobal, 0, 0, opOut],
        [.Str "boom", .Integer 1, .Str "!"]) :=
  ⟨run_progTryCatch, compile_progTryCatch⟩

/-- C3: precedence holds (`1 + 2 * 3` prints 7, `(1 + 2) * 3` prints 9,
`10 / 3` prints 3), but the claim's Mod part fails on the code: `VM.Run`'s
binary-operation dispatch case lists only Add, Sub, Mul, Div, GreaterThan,
Equal and NotEqual, so the `OpMod` opcode emitted for `10 % 3` is skipped
by the switch with both operands left on the stack, and `out 10 % 3;`
prints `3` (the leftover right operand), not the remainder `1`. -/
theorem mod_opcode_not_dispatched :
    (runProgram progArith 100).outputOf = some ["7", "9", "3"] ∧
    (runProgram progMod 100).outputOf = some ["3"] :=
  ⟨run_progArith, run_progMod⟩

/-- C4: the claim says Div or Mod with a zero right operand makes the run
loop return an error.  On the code, `out 10 / 0;` hits Go's integer
division with no zero check — a runtime panic, not an error result — and
`out 10 % 0;` completes normally printing `0`, because `OpMod` has no
dispatch case in `VM.Run` and the modulo-by-zero check in
`executeIntegerBinaryOp` is unreachable. -/
theorem div_mod_zero_not_errors :
    runProgram progDivZero 100 = .goPanic "integer divide by zero" ∧
    (runProgram progModZero 100).outputOf = some ["0"] ∧
    (runProgram progModZero 100).errorMsg = none :=
  ⟨run_progDivZero, run_progModZero, errorMsg_of_outputOf run_progModZero⟩

/-- C5 counterexample: `out (0 || "fallback");` prints `0`, not `fallback`
as the claim states — `isTruthy` holds of Integer `0` (only Boolean and
Null can be non-truthy), so `JumpTruthy` short-circuits keeping `0`. -/
theorem or_zero_prints_zero_not_fallback :
    (runProgram progOrFallback 100).outputOf = some ["0"] ∧
    (["0"] : List String) ≠ ["fallback"] :=
  ⟨run_progOrFallback, by decide⟩

/-- C5 amended: `out (0 || "fallback");` prints `0` (Integer `0` is truthy,
so `JumpTruthy` — which peeks without popping — short-circuits with `0`
left on the stack as the `||` result) and `out (true && 42);` prints
`42`. -/
theorem short_circuit_value_preservation_amended :
    (runProgram progOrFallback 100).outputOf = some ["0"] ∧
    (runProgram progAndValue 100).outputOf = some ["42"] :=
  ⟨run_progOrFallback, run_progAndValue⟩

/-- C6: the claim says every compiling program ends top-level execution
with `sp` equal to 1 or 0.  The program `false && 1;` compiles, and its
execution never reaches a final `sp` at all: the `&&` lowering pops the
non-truthy left operand at `JumpNotTruthy` and jumps over the right
operand, so the statement's `Pop` runs with `sp = 0` and `VM.pop`'s
unchecked `stack[sp-1]` read is a Go index-out-of-range panic. -/
theorem stack_depth_invariant_violated :
    runProgram progAndUnderflow 100 = .goPanic "index out of range" ∧
    (runProgram progAndUnderflow 100).finalSp = none :=
  ⟨run_progAndUnderflow, by rw [run_progAndUnderflow]; rfl⟩

/-- Reading any slot after rewriting slot `i` with its own current value
gives the original stack back pointwise. -/
theorem stackGetD_write_self (l : List Object) (i j : Nat) :
    stackGetD (stackWrite l i (stackGetD l i)) j = stackGetD l j := by
  simp only [stackGetD, stackWrite, List.getD_eq_getElem?_getD]
  rcases eq_or_ne j i with rfl | hj
  · rw [List.getElem?_set_self (by simp; omega)]
    rcases Nat.lt_or_ge j l.length with hjl | hjl
    · simp [List.getElem?_append_left hjl]
    · simp [List.getElem?_eq_none hjl]
  · rw [List.getElem?_set_ne (Ne.symm hj)]
    rcases Nat.lt_or_ge j l.length with hjl | hjl
    · rw [List.getElem?_append_left hjl]
    · rw [List.getElem?_append_right hjl, List.getElem?_replicate,
        List.getElem?_eq_none hjl]
      by_cases hrep : j - l.length < i + 1 - l.length <;> simp [hrep]

/-- A non-final iteration of the run loop fetches the byte at `ip + 1`
and dispatches on it. -/
theorem vmStep_dispatch (cs stck : List Object) (sp : Nat)
    (gl : List (Nat × Object)) (f : Frame) (rest : List Frame)
    (hnds : List Nat) (out : List String)
    (hip : f.ip < (f.instructions.length : Int) - 1) :
    vmStep ⟨cs, stck, sp, gl, f :: rest, hnds, out⟩ =
      vmDispatch ⟨cs, stck, sp, gl, { f with ip := f.ip + 1 } :: rest, hnds, out⟩
        f.instructions (f.ip + 1).toNat
        (f.instructions.getD (f.ip + 1).toNat 0) := by
  simp only [vmStep]
  rw [if_neg (not_le.mpr hip)]

/-- The `case code.OpThrow` branch of the dispatch switch in isolation. -/
theorem vmDispatch_throw (vm : VM) (ins : List Nat) (ip : Nat) :
    vmDispatch vm ins ip opThrow =
      (if vm.sp = 0 then .vmError "throw with empty stack"
       else
         match vm.handlers with
         | [] =>
           match vm.popVal with
           | none => .goPanic "index out of range"
           | some (errObj, _) =>
             match errObj.inspect with
             | some s => .vmError ("uncaught throw: " ++ s)
             | none => .unmodeled "nondeterministic Inspect output"
         | handlerPos :: restHandlers =>
           match vm.popVal with
           | none => .goPanic "index out of range"
           | some (thrown, vm1) =>
             let vm2 := { vm1 with handlers := restHandlers }
             let vm3 := vm2.pushDiscardErr thrown
             .cont (vm3.withFrameIp ((handlerPos : Int) - 1))) := rfl

/-- The `case code.OpEndCatch` branch of the dispatch switch in isolation. -/
theorem vmDispatch_endCatch (vm : VM) (ins : List Nat) (ip : Nat) :
    vmDispatch vm ins ip opEndCatch =
      (match vm.handlers with
       | [] => .vmError "OpEndCatch without OpCatch"
       | _ :: restHandlers => .cont { vm with handlers := restHandlers }) := rfl

/-- The `case code.OpPop` branch of the dispatch switch in isolation. -/
theorem vmDispatch_pop (vm : VM) (ins : List Nat) (ip : Nat) :
    vmDispatch vm ins ip opPop =
      (match vm.popVal with
       | none => .goPanic "index out of range"
       | some (_, vm1) => .cont vm1) := rfl

/-- The `case code.OpBang` branch of the dispatch switch in isolation. -/
theorem vmDispatch_bang (vm : VM) (ins : List Nat) (ip : Nat) :
    vmDispatch vm ins ip opBang =
      (match vm.popVal with
       | none => .goPanic "index out of range"
       | some (operand, vm1) =>
         .cont (vm1.pushDiscardErr (.Boolean (!isTruthy operand)))) := rfl

/-- The `case code.OpJumpNotTruthy` branch of the dispatch switch in
isolation. -/
theorem vmDispatch_jumpNotTruthy (vm : VM) (ins : List Nat) (ip : Nat) :
    vmDispatch vm ins ip opJumpNotTruthy =
      (let pos := readUInt16 ins (ip + 1)
       let vmb := vm.bumpIp 2
       match vmb.popVal with
       | none => .goPanic "index out of range"
       | some (condition, vm1) =>
         if !isTruthy condition then .cont (vm1.withFrameIp ((pos : Int) - 1))
         else .cont vm1) := rfl

/-- The `case code.OpJumpTruthy` branch of the dispatch switch in
isolation. -/
theorem vmDispatch_jumpTruthy (vm : VM) (ins : List Nat) (ip : Nat) :
    vmDispatch vm ins ip opJumpTruthy =
      (let pos := readUInt16 ins (ip + 1)
       let vmb := vm.bumpIp 2
       if isTruthy vmb.stackTop then .cont (vmb.withFrameIp ((pos : Int) - 1))
       else .cont vmb) := rfl

/-- C7: OpThrow with no pending handler pops the thrown value and halts the
run loop with the uncaught-throw error built from its Inspect string; with a
pending handler it pops that one handler, leaves the stack contents and sp
unchanged (the thrown value is popped and re-pushed into the same slot), and
sets the current frame's ip to the handler target minus 1 without popping
any frames; OpEndCatch pops exactly one handler and changes nothing else. -/
theorem throw_endcatch_semantics :
    (∀ (cs stck : List Object) (sp : Nat) (gl : List (Nat × Object))
       (f : Frame) (rest : List Frame) (out : List String) (s : String),
      f.ip < (f.instructions.length : Int) - 1 →
      f.instructions.getD (f.ip + 1).toNat 0 = opThrow →
      0 < sp →
      (stackGetD stck (sp - 1)).inspect = some s →
      vmStep ⟨cs, stck, sp, gl, f :: rest, [], out⟩ =
        .vmError ("uncaught throw: " ++ s)) ∧
    (∀ (cs stck : List Object) (sp : Nat) (gl : List (Nat × Object))
       (f : Frame) (rest : List Frame) (h : Nat) (hs : List Nat)
       (out : List String),
      f.ip < (f.instructions.length : Int) - 1 →
      f.instructions.getD (f.ip + 1).toNat 0 = opThrow →
      0 < sp → sp ≤ StackSize →
      vmStep ⟨cs, stck, sp, gl, f :: rest, h :: hs, out⟩ =
        .cont ⟨cs, stackWrite stck (sp - 1) (stackGetD stck (sp - 1)), sp,
          gl, { f with ip := (h : Int) - 1 } :: rest, hs, out⟩ ∧
      (∀ i, stackGetD (stackWrite stck (sp - 1) (stackGetD stck (sp - 1))) i =
        stackGetD stck i)) ∧
    (∀ (cs stck : List Object) (sp : Nat) (gl : List (Nat × Object))
       (f : Frame) (rest : List Frame) (h : Nat) (hs : List Nat)
       (out : List String),
      f.ip < (f.instructions.length : Int) - 1 →
      f.instructions.getD (f.ip + 1).toNat 0 = opEndCatch →
      vmStep ⟨cs, stck, sp, gl, f :: rest, h :: hs, out⟩ =
        .cont ⟨cs, stck, sp, gl, { f with ip := f.ip + 1 } :: rest, hs, out⟩) := by
  refine ⟨?_, ?_, ?_⟩
  · intro cs stck sp gl f rest out s hip hop hsp hins
    rw [vmStep_dispatch cs stck sp gl f rest [] out hip, hop,
      vmDispatch_throw]
    rw [if_neg (Nat.pos_iff_ne_zero.mp hsp)]
    simp only [VM.popVal]
    rw [if_neg (Nat.pos_iff_ne_zero.mp hsp)]
    simp only [VM.stackGet] at hins ⊢
    rw [hins]
  · intro cs stck sp gl f rest h hs out hip hop hsp hsp2
    refine ⟨?_, fun i => stackGetD_write_self stck (sp - 1) i⟩
    rw [vmStep_dispatch cs stck sp gl f rest (h :: hs) out hip, hop,
      vmDispatch_throw]
    rw [if_neg (Nat.pos_iff_ne_zero.mp hsp)]
    simp only [VM.popVal]
    rw [if_neg (Nat.pos_iff_ne_zero.mp hsp)]
    simp only [VM.pushDiscardErr, VM.push, VM.stackGet]
    have hlt : ¬ (sp - 1 ≥ StackSize) := by
      simp only [StackSize] at hsp2 ⊢
      omega
    rw [if_neg hlt]
    simp only [VM.withFrameIp]
    have hsp1 : sp - 1 + 1 = sp := by omega
    rw [hsp1]
  · intro cs stck sp gl f rest h hs out hip hop
    rw [vmStep_dispatch cs stck sp gl f rest (h :: hs) out hip, hop,
      vmDispatch_endCatch]

/-- C7 witness: a throw of "boom" with no handler halts with the uncaught
error; a throw with handler target 9 keeps the stack and jumps the frame to
ip 8; EndCatch at handler stack [3] just drops the handler. -/
theorem throw_endcatch_semantics_witness :
    vmStep ⟨[], [.Str "boom"], 1, [], [⟨[opThrow], none, [], 0, -1, 0⟩], [], []⟩ =
      .vmError ("uncaught throw: " ++ "boom") ∧
    vmStep ⟨[], [.Str "err"], 1, [], [⟨[opThrow], none, [], 0, -1, 0⟩], [9], []⟩ =
      .cont ⟨[], stackWrite [.Str "err"] 0 (stackGetD [.Str "err"] 0), 1, [],
        [⟨[opThrow], none, [], 0, (9 : Int) - 1, 0⟩], [], []⟩ ∧
    vmStep ⟨[], [], 0, [], [⟨[opEndCatch], none, [], 0, -1, 0⟩], [3], []⟩ =
      .cont ⟨[], [], 0, [], [⟨[opEndCatch], none, [], 0, -1 + 1, 0⟩], [], []⟩ :=
  ⟨throw_endcatch_semantics.1 [] [.Str "boom"] 1 []
      ⟨[opThrow], none, [], 0, -1, 0⟩ [] [] "boom"
      (by decide) (by decide) (by decide) rfl,
   (throw_endcatch_semantics.2.1 [] [.Str "err"] 1 []
      ⟨[opThrow], none, [], 0, -1, 0⟩ [] 9 [] []
      (by decide) (by decide) (by decide) (by decide)).1,
   throw_endcatch_semantics.2.2 [] [] 0 []
      ⟨[opEndCatch], none, [], 0, -1, 0⟩ [] 3 [] []
      (by decide) (by decide)⟩

/-- C8: an Integer index into an Array that is negative or past the last
element pushes Null; index dispatch on a receiver that is neither Array nor
Hash is the index-operator-not-supported VM error; hash indexing with a
non-hashable key is the unusable-as-hash-key VM error; hash indexing with a
hashable key that is absent pushes Null. -/
theorem index_boundary_behavior :
    (∀ (vm : VM) (elems : List Object) (i : Int),
      (i < 0 ∨ i > (elems.length : Int) - 1) →
      vm.executeArrayIndex (.Arr elems) (.Integer i) = vm.push .Null) ∧
    (∀ (vm : VM) (left index : Object),
      left.typeTag ≠ "ARRAY" → left.typeTag ≠ "HASH" →
      vm.executeIndexExpression left index =
        .vmError ("index operator not supported: " ++ left.typeTag)) ∧
    (∀ (vm : VM) (pairs : List (HashKey × Object × Object)) (index : Object),
      index.hashKey = none →
      vm.executeHashIndex (.HashObj pairs) index =
        .vmError ("unusable as hash key: " ++ index.typeTag)) ∧
    (∀ (vm : VM) (pairs : List (HashKey × Object × Object)) (index : Object)
       (hk : HashKey),
      index.hashKey = some hk → hashLookup pairs hk = none →
      vm.executeHashIndex (.HashObj pairs) index = vm.push .Null) := by
  refine ⟨?_, ?_, ?_, ?_⟩
  · intro vm elems i h
    simp only [VM.executeArrayIndex]
    rw [if_pos h]
  · intro vm left index h1 h2
    simp only [VM.executeIndexExpression]
    rw [if_neg (fun hc => h1 hc.1), if_neg h2]
  · intro vm pairs index h
    simp only [VM.executeHashIndex, h]
  · intro vm pairs index hk h1 h2
    simp only [VM.executeHashIndex, h1, h2]

/-- C8 witness: index 5 into [7] pushes Null; indexing an Integer is the
not-supported error; an Array key into a hash is the unusable-key error; a
missing Integer key pushes Null. -/
theorem index_boundary_behavior_witness :
    (VM.new [] []).executeArrayIndex (.Arr [.Integer 7]) (.Integer 5) =
      (VM.new [] []).push .Null ∧
    (VM.new [] []).executeIndexExpression (.Integer 1) (.Integer 0) =
      .vmError ("index operator not supported: " ++ (Object.Integer 1).typeTag) ∧
    (VM.new [] []).executeHashIndex (.HashObj []) (.Arr []) =
      .vmError ("unusable as hash key: " ++ (Object.Arr []).typeTag) ∧
    (VM.new [] []).executeHashIndex (.HashObj []) (.Integer 1) =
      (VM.new [] []).push .Null :=
  ⟨index_boundary_behavior.1 (VM.new [] []) [.Integer 7] 5 (by decide),
   index_boundary_behavior.2.1 (VM.new [] []) (.Integer 1) (.Integer 0)
      (by decide) (by decide),
   index_boundary_behavior.2.2.1 (VM.new [] []) [] (.Arr []) rfl,
   index_boundary_behavior.2.2.2 (VM.new [] []) [] (.Integer 1)
      ⟨"INTEGER", toUInt64Pattern 1⟩ rfl rfl⟩

/-- C9: OpPop at sp = 0 reads stack[sp-1] with no underflow check and the
run loop ends in the Go index-out-of-range panic; and for any non-truthy
Boolean left operand, `b && n;` compiles to the claimed
left/JumpNotTruthy/right/Pop shape, after two steps the VM sits at sp = 0
about to dispatch OpPop, and the whole program run ends in that panic. -/
theorem and_nontruthy_underflow :
    (∀ (cs stck : List Object) (gl : List (Nat × Object)) (f : Frame)
       (rest : List Frame) (hnds : List Nat) (out : List String),
      f.ip < (f.instructions.length : Int) - 1 →
      f.instructions.getD (f.ip + 1).toNat 0 = opPop →
      vmStep ⟨cs, stck, 0, gl, f :: rest, hnds, out⟩ =
        .goPanic "index out of range") ∧
    (∀ (n : Int) (b : Bool), isTruthy (.Boolean b) = false →
      compileProgram (.cons (.ExpressionStatement
          (.InfixExpression "&&" (.BooleanLit b) (.IntegerLiteral n))) .nil) =
        .ok ([opFalse, opJumpNotTruthy, 0, 7, opConstant, 0, 0, opPop],
          [.Integer n]) ∧
      stepN 2 (VM.new [opFalse, opJumpNotTruthy, 0, 7, opConstant, 0, 0, opPop]
          [.Integer n]) =
        .cont ⟨[.Integer n], [.Boolean false], 0, [],
          [⟨[opFalse, opJumpNotTruthy, 0, 7, opConstant, 0, 0, opPop],
            none, [], 0, 6, 0⟩], [], []⟩ ∧
      fetchOp ⟨[.Integer n], [.Boolean false], 0, [],
          [⟨[opFalse, opJumpNotTruthy, 0, 7, opConstant, 0, 0, opPop],
            none, [], 0, 6, 0⟩], [], []⟩ = some opPop ∧
      runProgram (.cons (.ExpressionStatement
          (.InfixExpression "&&" (.BooleanLit b) (.IntegerLiteral n))) .nil) 100 =
        .goPanic "index out of range") := by
  constructor
  · intro cs stck gl f rest hnds out hip hop
    rw [vmStep_dispatch cs stck 0 gl f rest hnds out hip, hop,
      vmDispatch_pop]
    simp
  · intro n b hb
    cases b
    · refine ⟨?_, ?_, ?_, ?_⟩
      · simp [List.enum, List.enumFrom, List.foldl, List.find?, List.map,
          List.set, List.length, List.append, List.replicate, List.foldr,
          List.getD, List.get?, List.zip, List.zipWith]
      · simp [List.getD, List.get?, List.set, List.replicate, List.append,
          List.length]
      · simp [List.getD, List.get?, List.length]
      · simp [List.enum, List.enumFrom, List.foldl, List.find?, List.map,
          List.set, List.length, List.append, List.replicate, List.foldr,
          List.getD, List.get?, List.zip, List.zipWith]
    · simp [isTruthy] at hb

/-- C9 witness: a bare OpPop frame at sp = 0 panics, and the concrete
program `false && 42;` compiles, reaches OpPop at sp = 0 after two steps,
and its full run panics with index out of range. -/
theorem and_nontruthy_underflow_witness :
    vmStep ⟨[], [], 0, [], [⟨[opPop], none, [], 0, -1, 0⟩], [], []⟩ =
      .goPanic "index out of range" ∧
    runProgram (.cons (.ExpressionStatement
        (.InfixExpression "&&" (.BooleanLit false) (.IntegerLiteral 42))) .nil)
      100 = .goPanic "index out of range" :=
  ⟨and_nontruthy_underflow.1 [] [] [] ⟨[opPop], none, [], 0, -1, 0⟩ [] [] []
      (by decide) (by decide),
   (and_nontruthy_underflow.2 42 false (by decide)).2.2.2⟩

/-- C10: isTruthy returns the payload of a Boolean, false for Null, and
true for every other value (in particular Integer 0, every Float, the empty
string and the empty array are truthy), and this one predicate decides the
OpBang result and both conditional-jump directions. -/
theorem truthiness_boolean_null_only :
    (∀ b : Bool, isTruthy (.Boolean b) = b) ∧
    isTruthy .Null = false ∧
    (∀ v : Object, (∀ b, v ≠ .Boolean b) → v ≠ .Null → isTruthy v = true) ∧
    (isTruthy (.Integer 0) = true ∧ (∀ bits : Nat, isTruthy (.Float bits) = true) ∧
      isTruthy (.Str "") = true ∧ isTruthy (.Arr []) = true) ∧
    (∀ (cs stck : List Object) (sp : Nat) (gl : List (Nat × Object))
       (f : Frame) (rest : List Frame) (hnds : List Nat) (out : List String),
      f.ip < (f.instructions.length : Int) - 1 →
      f.instructions.getD (f.ip + 1).toNat 0 = opBang →
      0 < sp → sp ≤ StackSize →
      vmStep ⟨cs, stck, sp, gl, f :: rest, hnds, out⟩ =
        .cont ⟨cs,
          stackWrite stck (sp - 1)
            (.Boolean (!isTruthy (stackGetD stck (sp - 1)))),
          sp, gl, { f with ip := f.ip + 1 } :: rest, hnds, out⟩) ∧
    (∀ (cs stck : List Object) (sp : Nat) (gl : List (Nat × Object))
       (f : Frame) (rest : List Frame) (hnds : List Nat) (out : List String),
      f.ip < (f.instructions.length : Int) - 1 →
      f.instructions.getD (f.ip + 1).toNat 0 = opJumpNotTruthy →
      0 < sp →
      vmStep ⟨cs, stck, sp, gl, f :: rest, hnds, out⟩ =
        .cont ⟨cs, stck, sp - 1, gl,
          { f with ip :=
              if isTruthy (stackGetD stck (sp - 1)) then f.ip + 3
              else (readUInt16 f.instructions ((f.ip + 1).toNat + 1) : Int) - 1 }
            :: rest, hnds, out⟩) ∧
    (∀ (cs stck : List Object) (sp : Nat) (gl : List (Nat × Object))
       (f : Frame) (rest : List Frame) (hnds : List Nat) (out : List String),
      f.ip < (f.instructions.length : Int) - 1 →
      f.instructions.getD (f.ip + 1).toNat 0 = opJumpTruthy →
      0 < sp →
      vmStep ⟨cs, stck, sp, gl, f :: rest, hnds, out⟩ =
        .cont ⟨cs, stck, sp, gl,
          { f with ip :=
              if isTruthy (stackGetD stck (sp - 1)) then
                (readUInt16 f.instructions ((f.ip + 1).toNat + 1) : Int) - 1
              else f.ip + 3 }
            :: rest, hnds, out⟩) := by
  refine ⟨?_, rfl, ?_, ⟨rfl, fun _ => rfl, rfl, rfl⟩, ?_, ?_, ?_⟩
  · intro b
    cases b <;> rfl
  · intro v hb hn
    cases v
    all_goals simp only [isTruthy]
    · exact absurd rfl (hb _)
    · exact absurd rfl hn
  · intro cs stck sp gl f rest hnds out hip hop hsp hsp2
    rw [vmStep_dispatch cs stck sp gl f rest hnds out hip, hop,
      vmDispatch_bang]
    simp only [VM.popVal]
    rw [if_neg (Nat.pos_iff_ne_zero.mp hsp)]
    simp only [VM.pushDiscardErr, VM.push, VM.stackGet]
    have hlt : ¬ (sp - 1 ≥ StackSize) := by
      simp only [StackSize] at hsp2 ⊢
      omega
    rw [if_neg hlt]
    have hsp1 : sp - 1 + 1 = sp := by omega
    rw [hsp1]
  · intro cs stck sp gl f rest hnds out hip hop hsp
    rw [vmStep_dispatch cs stck sp gl f rest hnds out hip, hop,
      vmDispatch_jumpNotTruthy]
    simp only [VM.bumpIp, VM.popVal]
    rw [if_neg (Nat.pos_iff_ne_zero.mp hsp)]
    simp only [VM.stackGet, VM.withFrameIp]
    cases hc : isTruthy (stackGetD stck (sp - 1))
    · simp
    · simp [show f.ip + 1 + 2 = f.ip + 3 from by omega]
  · intro cs stck sp gl f rest hnds out hip hop hsp
    rw [vmStep_dispatch cs stck sp gl f rest hnds out hip, hop,
      vmDispatch_jumpTruthy]
    simp only [VM.bumpIp, VM.stackTop, VM.stackGet]
    rw [if_neg (Nat.pos_iff_ne_zero.mp hsp)]
    simp only [VM.withFrameIp]
    cases hc : isTruthy (stackGetD stck (sp - 1))
    · simp [show f.ip + 1 + 2 = f.ip + 3 from by omega]
    · simp

/-- C10 witness: Integer 5 is truthy; OpBang on Integer 0 pushes false;
OpJumpNotTruthy on truthy Integer 0 falls through to ip 2; OpJumpTruthy on
the same condition jumps to the operand target 9 minus 1. -/
theorem truthiness_boolean_null_only_witness :
    isTruthy (.Integer 5) = true ∧
    vmStep ⟨[], [.Integer 0], 1, [], [⟨[opBang], none, [], 0, -1, 0⟩], [], []⟩ =
      .cont ⟨[], [.Boolean false], 1, [],
        [⟨[opBang], none, [], 0, -1 + 1, 0⟩], [], []⟩ ∧
    vmStep ⟨[], [.Integer 0], 1, [],
        [⟨[opJumpNotTruthy, 0, 9], none, [], 0, -1, 0⟩], [], []⟩ =
      .cont ⟨[], [.Integer 0], 0, [],
        [⟨[opJumpNotTruthy, 0, 9], none, [], 0, 2, 0⟩], [], []⟩ ∧
    vmStep ⟨[], [.Integer 0], 1, [],
        [⟨[opJumpTruthy, 0, 9], none, [], 0, -1, 0⟩], [], []⟩ =
      .cont ⟨[], [.Integer 0], 1, [],
        [⟨[opJumpTruthy, 0, 9], none, [], 0, 8, 0⟩], [], []⟩ :=
  ⟨truthiness_boolean_null_only.2.2.1 (.Integer 5)
      (fun b h => Object.noConfusion h) (fun h => Object.noConfusion h),
   truthiness_boolean_null_only.2.2.2.2.1 [] [.Integer 0] 1 []
      ⟨[opBang], none, [], 0, -1, 0⟩ [] [] [] (by decide) (by decide)
      (by decide) (by decide),
   truthiness_boolean_null_only.2.2.2.2.2.1 [] [.Integer 0] 1 []
      ⟨[opJumpNotTruthy, 0, 9], none, [], 0, -1, 0⟩ [] [] [] (by decide)
      (by decide) (by decide),
   truthiness_boolean_null_only.2.2.2.2.2.2 [] [.Integer 0] 1 []
      ⟨[opJumpTruthy, 0, 9], none, [], 0, -1, 0⟩ [] [] [] (by decide)
      (by decide) (by decide)⟩

end Exon
